import Mathlib

/-!
# Formal model of the `keys` storefront (web app + bot console)

A shallow embedding, in Lean 4, of the business logic of the key-selling
storefront: the payment matcher and fulfillment sequence of
`app.py:check_mb_payment`, the flat-file key pool
(`count_keys` / `get_key_from_file` / `delete_key_from_file`, including the
GitHub-API mirror path `GitHubDataManager.delete_key_and_save_solved`), the
JSON coupon store of both the web app and the bot console
(`is_coupon_valid` / `use_coupon`), the legacy promo table, and the
admin OTP rate limiter (`check_email_send_cooldown` /
`update_email_send_tracking` / `admin_send_otp` / `verify_otp`).

Conventions of the embedding:
* Python text files are modelled as `Option (List String)` — `none` for an
  absent file, `some lines` for its lines (without trailing newline chars);
  JSON dicts as association lists keyed by strings.
* `datetime` values are modelled as proleptic-Gregorian second counts
  (`Int` where differences are compared); `datetime.strptime` of the three
  formats the program uses is implemented as total parsers returning
  `Option Nat`.
* External effects (bank API fetch, SendGrid send, GitHub writes) are
  explicit parameters carrying their outcome; file IO that the source
  assumes to succeed is modelled as pure state passing, while the
  solved-log append outcome — which the source inspects — is an explicit
  boolean parameter.
-/

namespace Keys

/-- Drop leading whitespace characters from a character list. -/
def dropWs : List Char → List Char
  | [] => []
  | c :: cs => if c.isWhitespace then dropWs cs else c :: cs

/-- Python `str.strip()`: remove whitespace from both ends. -/
def pyStrip (s : String) : String :=
  ⟨(dropWs (dropWs s.toList).reverse).reverse⟩

/-- Python `str.upper()` (ASCII, as used by the program on codes/memos). -/
def pyUpper (s : String) : String := ⟨s.toList.map Char.toUpper⟩

/-- Python `str.lower()`. -/
def pyLower (s : String) : String := ⟨s.toList.map Char.toLower⟩

/-- A line that Python's `line.strip()` sends to the empty string. -/
def isBlankLine (s : String) : Bool := pyStrip s == ""

/-- Numeric value of a decimal digit character. -/
def digitVal (c : Char) : Nat := c.toNat - 48

/-- All characters are decimal digits. -/
def allDigits (cs : List Char) : Bool := cs.all Char.isDigit

/-- Value of a digit string. -/
def natOfDigits (cs : List Char) : Nat := cs.foldl (fun a c => 10 * a + digitVal c) 0

/-- Python `int(s)` restricted to the shapes the program feeds it:
a non-empty string of decimal digits parses, everything else raises
(modelled as `none`). -/
def pyInt? (s : String) : Option Nat :=
  let cs := s.toList
  if !cs.isEmpty && allDigits cs then some (natOfDigits cs) else none

/-- Python's `needle in hay` substring test, on character lists. -/
def hasSub : List Char → List Char → Bool
  | [], needle => needle.isEmpty
  | c :: t, needle => List.isPrefixOf needle (c :: t) || hasSub t needle

/-- Python's `needle in hay` on strings. -/
def containsSubstr (hay needle : String) : Bool := hasSub hay.toList needle.toList

/-- Association-list lookup, first binding wins (Python dict access). -/
def alook {α : Type} : List (String × α) → String → Option α
  | [], _ => none
  | (k, v) :: t, key => if k == key then some v else alook t key

/-- Association-list update-or-insert (Python `d[k] = v`). -/
def aset {α : Type} : List (String × α) → String → α → List (String × α)
  | [], key, v => [(key, v)]
  | (k, w) :: t, key, v => if k == key then (k, v) :: t else (k, w) :: aset t key v

/-- Association-list deletion (Python `del d[k]`). -/
def adel {α : Type} : List (String × α) → String → List (String × α)
  | [], _ => []
  | (k, w) :: t, key => if k == key then adel t key else (k, w) :: adel t key

/-- Split a character list on a separator character. -/
def splitOnChar (sep : Char) : List Char → List (List Char)
  | [] => [[]]
  | c :: t =>
    let r := splitOnChar sep t
    if c == sep then [] :: r
    else
      match r with
      | [] => [[c]]
      | h :: rt => (c :: h) :: rt

/-- Python's `period.replace("_v2", "")`: delete every occurrence of the
three-character pattern `_v2`, scanning left to right. -/
def removeV2 : List Char → List Char
  | '_' :: 'v' :: '2' :: rest => removeV2 rest
  | c :: rest => c :: removeV2 rest
  | [] => []

/-- `period.replace("_v2", "")` on strings. -/
def removeV2Str (s : String) : String := ⟨removeV2 s.toList⟩

/-! ## Calendar arithmetic (`datetime` as second counts) -/

/-- Gregorian leap-year test. -/
def isLeapYear (y : Nat) : Bool := (y % 4 == 0 && y % 100 != 0) || y % 400 == 0

/-- Lengths of the twelve months. -/
def monthLengths (leap : Bool) : List Nat :=
  [31, if leap then 29 else 28, 31, 30, 31, 30, 31, 31, 30, 31, 30, 31]

/-- Number of days in month `m` of year `y` (0 for an invalid month). -/
def daysInMonth (y m : Nat) : Nat := (monthLengths (isLeapYear y)).getD (m - 1) 0

/-- Days of year `y` that precede month `m`. -/
def daysBeforeMonth (y m : Nat) : Nat :=
  ((monthLengths (isLeapYear y)).take (m - 1)).foldl (· + ·) 0

/-- Proleptic-Gregorian day ordinal, as `datetime.date.toordinal`. -/
def toOrdinal (y m d : Nat) : Nat :=
  365 * (y - 1) + (y - 1) / 4 - (y - 1) / 100 + (y - 1) / 400 + daysBeforeMonth y m + d

/-- A civil datetime as a second count. -/
def civilSecs (y mo d h mi s : Nat) : Nat :=
  86400 * toOrdinal y mo d + 3600 * h + 60 * mi + s

/-- The date fields are one `datetime` accepts. -/
def validDate (y mo d : Nat) : Bool :=
  decide (1 ≤ y) && decide (y ≤ 9999) && decide (1 ≤ mo) && decide (mo ≤ 12) &&
  decide (1 ≤ d) && decide (d ≤ daysInMonth y mo)

/-- The time fields are ones `datetime` accepts. -/
def validTime (h mi s : Nat) : Bool :=
  decide (h ≤ 23) && decide (mi ≤ 59) && decide (s ≤ 59)

/-- One numeric `strptime` field: between 1 and `maxw` digits. -/
def parseField? (maxw : Nat) (cs : List Char) : Option Nat :=
  if !cs.isEmpty && decide (cs.length ≤ maxw) && allDigits cs then some (natOfDigits cs)
  else none

/-- `datetime.strptime(s, "%d/%m/%Y %H:%M:%S")` (bank transaction dates),
as a second count; `none` where Python raises `ValueError`. -/
def strptimeDmyHms? (s : String) : Option Nat :=
  match splitOnChar ' ' s.toList with
  | [ds, ts] =>
    match splitOnChar '/' ds, splitOnChar ':' ts with
    | [dcs, mcs, ycs], [hcs, mics, scs] =>
      match parseField? 2 dcs, parseField? 2 mcs, parseField? 4 ycs,
            parseField? 2 hcs, parseField? 2 mics, parseField? 2 scs with
      | some d, some mo, some y, some h, some mi, some sec =>
        if validDate y mo d && validTime h mi sec then some (civilSecs y mo d h mi sec)
        else none
      | _, _, _, _, _, _ => none
    | _, _ => none
  | _ => none

/-- `datetime.strptime(s, "%Y-%m-%d %H:%M:%S")` (web-app coupon expiry). -/
def strptimeYmdHms? (s : String) : Option Nat :=
  match splitOnChar ' ' s.toList with
  | [ds, ts] =>
    match splitOnChar '-' ds, splitOnChar ':' ts with
    | [ycs, mcs, dcs], [hcs, mics, scs] =>
      match parseField? 4 ycs, parseField? 2 mcs, parseField? 2 dcs,
            parseField? 2 hcs, parseField? 2 mics, parseField? 2 scs with
      | some y, some mo, some d, some h, some mi, some sec =>
        if validDate y mo d && validTime h mi sec then some (civilSecs y mo d h mi sec)
        else none
      | _, _, _, _, _, _ => none
    | _, _ => none
  | _ => none

/-- `datetime.strptime(s, "%Y-%m-%d")` (bot coupon expiry). -/
def strptimeYmd? (s : String) : Option Nat :=
  match splitOnChar '-' s.toList with
  | [ycs, mcs, dcs] =>
    match parseField? 4 ycs, parseField? 2 mcs, parseField? 2 dcs with
    | some y, some mo, some d =>
      if validDate y mo d then some (civilSecs y mo d 0 0 0) else none
    | _, _, _ => none
  | _ => none

/-! ## Payment matcher (`check_mb_payment` transaction loop) -/

/-- One bank transaction as returned by the MB statement API. -/
structure Transaction where
  type : String
  amount : String
  description : String
  transactionDate : String
deriving Repr, DecidableEq

/-- `tx["amount"].replace(",", "").replace(".", "")`. -/
def stripSeparators (s : String) : String :=
  ⟨s.toList.filter (fun c => !(c == ',' || c == '.'))⟩

/-- Filter 1: only incoming/credit transactions (`tx.get("type") == "IN"`). -/
def isInbound (tx : Transaction) : Bool := tx.type == "IN"

/-- Filter 2: amount with separators stripped parses and equals the
expected integer amount exactly. -/
def amountMatches (expected : Int) (tx : Transaction) : Bool :=
  match pyInt? (stripSeparators tx.amount) with
  | some credit => (credit : Int) == expected
  | none => false

/-- Filter 3: the uppercased verification code occurs in the uppercased
free-text memo. -/
def memoMatches (codeUpper : String) (tx : Transaction) : Bool :=
  containsSubstr (pyUpper tx.description) codeUpper

/-- Filter 4: the `DD/MM/YYYY HH:MM:SS` timestamp parses and is strictly
less than 24 hours before `now` (`now - tx_time >= timedelta(hours=24)`
rejects). -/
def isRecent (now : Int) (tx : Transaction) : Bool :=
  match strptimeDmyHms? tx.transactionDate with
  | some t => decide (now - (t : Int) < 86400)
  | none => false

/-- All four filters together. -/
def txPasses (codeUpper : String) (expected : Int) (now : Int) (tx : Transaction) : Bool :=
  isInbound tx && amountMatches expected tx && memoMatches codeUpper tx && isRecent now tx

/-- The transaction loop of `check_mb_payment`, `continue`s and all. -/
def findTxLoop (codeUpper : String) (expected : Int) (now : Int) :
    List Transaction → Option Transaction
  | [] => none
  | tx :: rest =>
    if tx.type != "IN" then findTxLoop codeUpper expected now rest
    else
      match pyInt? (stripSeparators tx.amount) with
      | none => findTxLoop codeUpper expected now rest
      | some credit =>
        if (credit : Int) != expected then findTxLoop codeUpper expected now rest
        else if !containsSubstr (pyUpper tx.description) codeUpper then
          findTxLoop codeUpper expected now rest
        else
          match strptimeDmyHms? tx.transactionDate with
          | none => findTxLoop codeUpper expected now rest
          | some t =>
            if now - (t : Int) ≥ 86400 then findTxLoop codeUpper expected now rest
            else some tx

/-- The matcher contract of spec §4.3: scan the fetched list for the
order's verification code and expected amount. -/
def findMatchingTransaction (txs : List Transaction) (codeOrder : String)
    (expected : Int) (now : Int) : Option Transaction :=
  findTxLoop (pyUpper codeOrder) expected now txs

theorem findTxLoop_cons (cu : String) (e now : Int) (tx : Transaction)
    (rest : List Transaction) :
    findTxLoop cu e now (tx :: rest) =
      if txPasses cu e now tx then some tx else findTxLoop cu e now rest := by
  have step : findTxLoop cu e now (tx :: rest) =
      (if tx.type != "IN" then findTxLoop cu e now rest
      else
        match pyInt? (stripSeparators tx.amount) with
        | none => findTxLoop cu e now rest
        | some credit =>
          if (credit : Int) != e then findTxLoop cu e now rest
          else if !containsSubstr (pyUpper tx.description) cu then
            findTxLoop cu e now rest
          else
            match strptimeDmyHms? tx.transactionDate with
            | none => findTxLoop cu e now rest
            | some t =>
              if now - (t : Int) ≥ 86400 then findTxLoop cu e now rest
              else some tx) := rfl
  rw [step]
  cases h1 : (tx.type == "IN") with
  | false =>
    have h1' : ¬ (tx.type = "IN") := by simpa using h1
    simp [txPasses, isInbound, h1, h1']
  | true =>
    have h1' : tx.type = "IN" := by simpa using h1
    cases h2 : pyInt? (stripSeparators tx.amount) with
    | none => simp [txPasses, isInbound, amountMatches, h1, h1', h2]
    | some credit =>
      cases h3 : ((credit : Int) == e) with
      | false =>
        have h3' : ¬ ((credit : Int) = e) := by simpa using h3
        simp [txPasses, isInbound, amountMatches, h1, h1', h2, h3, h3']
      | true =>
        have h3' : (credit : Int) = e := by simpa using h3
        cases h4 : containsSubstr (pyUpper tx.description) cu with
        | false =>
          simp [txPasses, isInbound, amountMatches, memoMatches, h1, h1', h2, h3, h3', h4]
        | true =>
          cases h5 : strptimeDmyHms? tx.transactionDate with
          | none =>
            simp [txPasses, isInbound, amountMatches, memoMatches, isRecent,
              h1, h1', h2, h3, h3', h4, h5]
          | some t =>
            by_cases h6 : (86400 : Int) ≤ now - (t : Int)
            · have h7 : ¬ (now - (t : Int) < 86400) := not_lt.mpr h6
              simp [txPasses, isInbound, amountMatches, memoMatches, isRecent,
                h1, h1', h2, h3, h3', h4, h5, h6, h7]
            · have h7 : now - (t : Int) < 86400 := lt_of_not_ge h6
              simp [txPasses, isInbound, amountMatches, memoMatches, isRecent,
                h1, h1', h2, h3, h3', h4, h5, h6, h7]

/-! ## Key pool (local flat files) -/

/-- The four period pools (`key1d.txt` … `key90d.txt`). -/
inductive Period where
  | p1d | p7d | p30d | p90d
deriving Repr, DecidableEq

/-- Local key-file state: the four pool files (`none` = file absent,
`some lines` = its lines) and the `key_solved.txt` append log. -/
structure KeyStore where
  key1d : Option (List String)
  key7d : Option (List String)
  key30d : Option (List String)
  key90d : Option (List String)
  solved : List String
deriving Repr, DecidableEq

/-- The pool file for a period. -/
def poolOf (s : KeyStore) : Period → Option (List String)
  | .p1d => s.key1d
  | .p7d => s.key7d
  | .p30d => s.key30d
  | .p90d => s.key90d

/-- `count_keys`: number of lines whose `strip()` is non-empty;
0 for an absent file. -/
def countKeys (s : KeyStore) (p : Period) : Nat :=
  match poolOf s p with
  | none => 0
  | some lines => (lines.filter (fun l => !(pyStrip l == ""))).length

/-- `get_key_from_file`: `None` when the file is absent or has no lines,
otherwise the stripped first line (a peek — nothing is removed). -/
def getKeyFromFile (s : KeyStore) (p : Period) : Option String :=
  match poolOf s p with
  | none => none
  | some [] => none
  | some (l :: _) => some (pyStrip l)

/-- `generate_key`: map the human period label back to a pool
(default `30d`) and peek. -/
def periodCodeOf (label : String) : Period :=
  if label == "1 day" then .p1d
  else if label == "7 day" then .p7d
  else if label == "30 day" then .p30d
  else if label == "90 day" then .p90d
  else .p30d

/-- `generate_key(period)`. -/
def generateKey (s : KeyStore) (label : String) : Option String :=
  getKeyFromFile s (periodCodeOf label)

/-- Remove every line whose `strip()` equals the key
(`delete_key_from_file`, step 1, per file). -/
def removeKeyLines (key : String) (lines : List String) : List String :=
  lines.filter (fun l => !(pyStrip l == key))

/-- The line appended to `key_solved.txt`: `key | timestamp [| email]`. -/
def solvedEntry (key ts : String) (email : Option String) : String :=
  key ++ " | " ++ ts ++ (match email with | some e => " | " ++ e | none => "")

/-- `delete_key_from_file` on the local-file path (no GitHub token):
reject an empty key; strip the key; remove it from all four pool files;
then append one line to the solved log — `appendOk` is the outcome of
that append, and it alone decides the returned boolean. -/
def deleteKeyFromFile (s : KeyStore) (key : String) (ts : String)
    (email : Option String) (appendOk : Bool) : Bool × KeyStore :=
  if key == "" then (false, s)
  else
    let k := pyStrip key
    let s1 : KeyStore := { s with
      key1d := s.key1d.map (removeKeyLines k)
      key7d := s.key7d.map (removeKeyLines k)
      key30d := s.key30d.map (removeKeyLines k)
      key90d := s.key90d.map (removeKeyLines k) }
    if appendOk then (true, { s1 with solved := s1.solved ++ [solvedEntry k ts email] })
    else (false, s1)

/-! ## Key pool (GitHub mirror path, `GitHubDataManager.delete_key_and_save_solved`) -/

/-- Remote file contents as the GitHub content API surfaces them:
`none` = read error, `some ""` = absent (404) or empty, `some c` = content. -/
structure GhFiles where
  key1d : Option String
  key7d : Option String
  key30d : Option String
  key90d : Option String
  solved : Option String
deriving Repr, DecidableEq

/-- Outcome of each `_write_file_content` call. -/
structure GhWriteOk where
  key1d : Bool
  key7d : Bool
  key30d : Bool
  key90d : Bool
  solved : Bool
deriving Repr, DecidableEq

/-- Join lines with newlines (Python `'\n'.join`). -/
def joinNl : List String → String
  | [] => ""
  | [s] => s
  | s :: t => s ++ "\n" ++ joinNl t

/-- One pool file of the GitHub delete loop: skip on read error or empty
content; split into stripped non-blank lines; if the key is present,
rewrite without it (with a trailing newline when lines remain), keeping
the old content when the write fails. Returns the resulting content. -/
def ghPoolStep (key : String) (wok : Bool) (content? : Option String) : Option String :=
  match content? with
  | none => none
  | some content =>
    if content == "" then some content
    else
      let lines := ((splitOnChar '\n' content.toList).map
        (fun cs => pyStrip ⟨cs⟩)).filter (fun l => !(l == ""))
      if !(lines.contains key) then some content
      else
        let newLines := lines.filter (fun l => !(l == key))
        let newContent := if newLines.isEmpty then joinNl newLines else joinNl newLines ++ "\n"
        if wok then some newContent else some content

/-- The solved-log step of the GitHub path: a read error is treated as
empty content; the entry is appended and written, keeping the old
content when the write fails. -/
def ghSolvedStep (key ts : String) (email : Option String) (wok : Bool)
    (content? : Option String) : Option String :=
  let current := content?.getD ""
  let entry := solvedEntry key ts email ++ "\n"
  let newContent := if current == "" then entry else current ++ entry
  if wok then some newContent else content?

/-- `delete_key_and_save_solved`: process the four pool files, then the
solved log. Whatever happened — key found nowhere, pool writes failed,
solved-log write failed — both terminal branches of the source return
`True`; only a manager without a token returns `False`. -/
def ghDeleteKeyAndSaveSolved (useGithub : Bool) (g : GhFiles) (w : GhWriteOk)
    (key ts : String) (email : Option String) : Bool × GhFiles :=
  if !useGithub then (false, g)
  else
    (true,
      { key1d := ghPoolStep key w.key1d g.key1d
        key7d := ghPoolStep key w.key7d g.key7d
        key30d := ghPoolStep key w.key30d g.key30d
        key90d := ghPoolStep key w.key90d g.key90d
        solved := ghSolvedStep key ts email w.solved g.solved })

/-- `delete_key_from_file` with both paths: try the GitHub manager first
and fall back to local files only when it reports failure (which, per
`ghDeleteKeyAndSaveSolved`, happens only when no token is configured). -/
def deleteKeyFromFileFull (useGithub : Bool) (g : GhFiles) (w : GhWriteOk)
    (s : KeyStore) (key : String) (ts : String) (email : Option String)
    (appendOk : Bool) : Bool × GhFiles × KeyStore :=
  if key == "" then (false, g, s)
  else
    let k := pyStrip key
    match ghDeleteKeyAndSaveSolved useGithub g w k ts email with
    | (true, g') => (true, g', s)
    | (false, g') =>
      let (ok, s') := deleteKeyFromFile s key ts email appendOk
      (ok, g', s')

/-! ## Coupon stores (web app and bot console) -/

/-- A coupon document: JSON fields are optional exactly where the source
reads them through `dict.get`. -/
structure Coupon where
  discount : Int
  ctype : Option String
  usesLeft : Option Int
  uses : Option Int
  expiresAt : Option String
  types : Option (List String)
  movedAt : Option String
deriving Repr, DecidableEq

/-- The coupons JSON document, keyed by uppercase code. -/
abbrev CouponStore := List (String × Coupon)

/-- `get_coupon`: look the uppercased code up. -/
def getCoupon (store : CouponStore) (code : String) : Option Coupon :=
  alook store (pyUpper code)

/-- The web app's expiry sub-check: only a `%Y-%m-%d %H:%M:%S`-parseable
`expires_at` strictly before now rejects; a parse failure is ignored
(`except: pass`). -/
def couponExpiredApp (now : Int) (c : Coupon) : Bool :=
  match c.expiresAt with
  | none => false
  | some es =>
    match strptimeYmdHms? es with
    | some t => decide (now > (t : Int))
    | none => false

/-- `is_coupon_valid` (web app, `app.py`): existence, then expiry, then
remaining uses (only for `type == "limited"`), then period applicability
on the period with any `_v2` suffix stripped (only when `types` is
present and non-empty); the first failing check's reason is returned. -/
def isCouponValid (store : CouponStore) (now : Int) (code period : String) :
    Bool × String :=
  match getCoupon store code with
  | none => (false, "Mã giảm giá không tồn tại")
  | some c =>
    if couponExpiredApp now c then (false, "Mã giảm giá đã hết hạn")
    else if c.ctype == some "limited" && decide (c.usesLeft.getD 0 ≤ 0) then
      (false, "Mã giảm giá đã hết lượt sử dụng")
    else
      let basePeriod := removeV2Str period
      match c.types with
      | some ts =>
        if !ts.isEmpty && !ts.contains basePeriod then
          (false, "Mã giảm giá không áp dụng cho gói " ++ basePeriod)
        else (true, "")
      | none => (true, "")

/-- `use_coupon` (web app, `app.py`): decrement a limited coupon's
`uses_left`, clamped at zero; never archives or removes; `True` whenever
the code exists. -/
def useCoupon (store : CouponStore) (code : String) : Bool × CouponStore :=
  let cu := pyUpper code
  match alook store cu with
  | none => (false, store)
  | some c =>
    if c.ctype == some "limited" then
      (true, aset store cu { c with usesLeft := some (max 0 (c.usesLeft.getD 0 - 1)) })
    else (true, store)

namespace Bot

/-- The bot's expiry sub-check: a truthy `expires_at` that parses as
`%Y-%m-%d` and is strictly before now; parse failures are ignored. -/
def couponExpired (now : Int) (c : Coupon) : Bool :=
  match c.expiresAt with
  | none => false
  | some es =>
    if es == "" then false
    else
      match strptimeYmd? es with
      | some t => decide (now > (t : Int))
      | none => false

/-- The legacy-aware remaining-uses read of the bot validator:
`uses_left`, falling back to the old `uses` field, defaulting to 0. -/
def effectiveUses (c : Coupon) : Int :=
  match c.usesLeft with
  | some u => u
  | none => c.uses.getD 0

/-- The bot validator's trailing period-applicability check. -/
def typesCheck (c : Coupon) (periodCode : String) : Bool × String :=
  let ts := c.types.getD []
  if !ts.isEmpty && !ts.contains periodCode then
    (false, "Mã này không áp dụng cho loại " ++ periodCode)
  else (true, "")

/-- `is_coupon_valid` (bot console, `bot.py`): existence, expiry
(`%Y-%m-%d`), remaining uses with the legacy `uses` fallback (skipped
for `type == "unlimited"`; a missing type defaults to limited), then
period applicability on the raw period code. -/
def isCouponValid (store : CouponStore) (now : Int) (code periodCode : String) :
    Bool × String :=
  match getCoupon store code with
  | none => (false, "Mã giảm giá không tồn tại")
  | some c =>
    if couponExpired now c then (false, "Mã giảm giá đã hết hạn")
    else
      let ctype := c.ctype.getD "limited"
      if ctype == "unlimited" then typesCheck c periodCode
      else
        let usesLeft : Int := effectiveUses c
        if usesLeft ≤ 0 then (false, "Mã giảm giá đã hết lượt sử dụng")
        else typesCheck c periodCode

/-- `use_coupon` (bot console, `bot.py`): decrement clamped at zero
(migrating the legacy `uses` field when present); when the result is
exhausted or the coupon is already past expiry, archive it into the
used-coupons document with a `moved_at` stamp and delete it from the
active set. -/
def useCoupon (store used : CouponStore) (now : Int) (ts : String) (code : String) :
    Bool × CouponStore × CouponStore :=
  let cu := pyUpper code
  match alook store cu with
  | none => (false, store, used)
  | some c =>
    if c.ctype.getD "limited" == "unlimited" then (true, store, used)
    else
      let dec : Coupon × Int :=
        match c.usesLeft, c.uses with
        | some u, _ => ({ c with usesLeft := some (max 0 (u - 1)) }, max 0 (u - 1))
        | none, some u => ({ c with usesLeft := some (max 0 (u - 1)), uses := none }, max 0 (u - 1))
        | none, none => ({ c with usesLeft := some 0 }, 0)
      let c' := dec.1
      if dec.2 ≤ 0 || couponExpired now c' then
        (true, adel store cu, aset used cu { c' with movedAt := some ts })
      else
        (true, aset store cu c', used)

end Bot

/-! ## Legacy promo table and orders (SQLite) -/

/-- A row of the legacy `promo_codes` table. -/
structure Promo where
  code : String
  discount : Int
  usesLeft : Int
  expiresAt : Option String
deriving Repr, DecidableEq

/-- `SELECT * FROM promo_codes WHERE code=?` — first matching row. -/
def findPromoRow : List Promo → String → Option Promo
  | [], _ => none
  | p :: t, code => if p.code == code then some p else findPromoRow t code

/-- `get_promo`: `.ok none` for a missing row, an expired row
(`%Y-%m-%d %H:%M:%S`), or a row with `uses_left == 0`; the `strptime`
call on a truthy `expires_at` is unguarded, so a malformed date raises a
`ValueError` that escapes the handler — modelled as `.error ()`. -/
def getPromo (promos : List Promo) (now : Int) (code : String) :
    Except Unit (Option Promo) :=
  match findPromoRow promos (pyUpper code) with
  | none => .ok none
  | some p =>
    let expired? : Except Unit Bool :=
      match p.expiresAt with
      | some es =>
        if es == "" then .ok false
        else
          match strptimeYmdHms? es with
          | some t => .ok (decide (now > (t : Int)))
          | none => .error ()
      | none => .ok false
    match expired? with
    | .error _ => .error ()
    | .ok true => .ok none
    | .ok false => if p.usesLeft == 0 then .ok none else .ok (some p)

/-- `decrement_promo`: unconditional `uses_left - 1` on the matching row. -/
def decrementPromo (promos : List Promo) (code : String) : List Promo :=
  promos.map (fun p => if p.code == pyUpper code then { p with usesLeft := p.usesLeft - 1 } else p)

/-- A row of the `orders` table. -/
structure Order where
  uid : String
  email : Option String
  key : Option String
  verificationCode : String
  promoCode : Option String
  paid : Bool
deriving Repr, DecidableEq

/-- `get_order`: first row with this uid. -/
def getOrder : List Order → String → Option Order
  | [], _ => none
  | o :: t, uid => if o.uid == uid then some o else getOrder t uid

/-- `UPDATE orders SET paid=1 WHERE uid=?`. -/
def markPaidL (orders : List Order) (uid : String) : List Order :=
  orders.map (fun o => if o.uid == uid then { o with paid := true } else o)

/-- `UPDATE orders SET email=?, key=?, promo_code=? WHERE uid=?`. -/
def setEmailKeyL (orders : List Order) (uid email key promoCode : String) : List Order :=
  orders.map (fun o =>
    if o.uid == uid then { o with email := some email, key := some key, promoCode := some promoCode }
    else o)

/-! ## The fulfillment sequence (`POST /check_mb_payment`) -/

/-- A `key_delivery_log` row. -/
structure DeliveryEntry where
  uid : String
  email : String
  key : String
  period : String
  status : String
deriving Repr, DecidableEq

/-- Everything `check_mb_payment` reads or mutates, plus the audit list
of emails the provider accepted. -/
structure AppState where
  orders : List Order
  keys : KeyStore
  coupons : CouponStore
  promos : List Promo
  deliveryLog : List DeliveryEntry
  emailsSent : List (String × String)
deriving Repr, DecidableEq

/-- The handler's outcomes, in source order. -/
inductive Resp where
  | errMissingInfo
  | errOrderNotFound
  | okAlreadyPaid
  | errBankApi
  | errTxNotFound
  | errInvalidPromo
  | errNoKey
  | errSendEmail
  | errUncaught
  | okDelivered (key period : String) (originalAmount discountPercent finalAmount : Int)
      (promoCode : String)
deriving Repr, DecidableEq

/-- A 2xx response. -/
def Resp.isOk : Resp → Bool
  | .okAlreadyPaid => true
  | .okDelivered .. => true
  | _ => false

/-- `period_map.get(period_code, "30 day")`. -/
def periodLabelOf (pc : String) : String :=
  if pc == "1d" then "1 day"
  else if pc == "7d" then "7 day"
  else if pc == "30d" then "30 day"
  else if pc == "90d" then "90 day"
  else "30 day"

/-- How the promo code resolved: absent, the new coupon store, or the
legacy promo table. -/
inductive PromoResolution where
  | noCode
  | coupon (discount : Int)
  | legacy (discount : Int)
deriving Repr, DecidableEq

/-- Discount percent of a resolution. -/
def discountOf : PromoResolution → Int
  | .noCode => 0
  | .coupon d => d
  | .legacy d => d

/-- How the promo-resolution block of `check_mb_payment` ends: with a
resolution, with the "invalid or expired code" rejection, or with the
uncaught `ValueError` out of `get_promo`. -/
inductive PromoOutcome where
  | resolved (pr : PromoResolution)
  | invalid
  | raised
deriving Repr, DecidableEq

/-- The promo-resolution block of `check_mb_payment`: an empty code means
full price; otherwise the coupon store is consulted first and the legacy
promo table as fallback. -/
def resolvePromo (coupons : CouponStore) (promos : List Promo) (now : Int)
    (promoCode basePeriod : String) : PromoOutcome :=
  if promoCode == "" then .resolved .noCode
  else if (isCouponValid coupons now promoCode basePeriod).1 then
    match getCoupon coupons promoCode with
    | some c => .resolved (.coupon c.discount)
    | none => .resolved (.coupon 0)
  else
    match getPromo promos now promoCode with
    | .error _ => .raised
    | .ok (some p) => .resolved (.legacy p.discount)
    | .ok none => .invalid

/-- `round(amount * (100 - d) / 100)`: Python `round` half-even, taken on
the exact rational `x / 100`. -/
def pyRoundDiv100 (x : Int) : Int :=
  let q := Int.ediv x 100
  let r := Int.emod x 100
  if r < 50 then q
  else if r > 50 then q + 1
  else if Int.emod q 2 == 0 then q else q + 1

/-- `check_mb_payment`. External outcomes are parameters: `mb` is the
fetched transaction list (`none` = bank API failure), `emailOk` the
SendGrid outcome, `solvedAppendOk` the solved-log append outcome, `ts`
the wall-clock timestamp string and `now` the wall-clock second count.
The drawn key goes through Python's `if not key:` truthiness check, so
an empty-string draw (blank first pool line) is also the no-key error. -/
def checkMbPayment (s : AppState) (uid email periodCode : String) (amount : Int)
    (promoRaw : String) (mb : Option (List Transaction)) (now : Int)
    (emailOk : Bool) (ts : String) (solvedAppendOk : Bool) : Resp × AppState :=
  if uid == "" || email == "" then (.errMissingInfo, s)
  else
    let promoCode := pyUpper promoRaw
    let period := periodLabelOf periodCode
    match getOrder s.orders uid with
    | none => (.errOrderNotFound, s)
    | some order =>
      if order.paid then (.okAlreadyPaid, s)
      else
        match mb with
        | none => (.errBankApi, s)
        | some txs =>
          match findMatchingTransaction txs order.verificationCode amount now with
          | none => (.errTxNotFound, s)
          | some _ =>
            let basePeriod := removeV2Str periodCode
            match resolvePromo s.coupons s.promos now promoCode basePeriod with
            | .raised => (.errUncaught, s)
            | .invalid => (.errInvalidPromo, s)
            | .resolved pr =>
              let discountPercent := discountOf pr
              let finalAmount := pyRoundDiv100 (amount * (100 - discountPercent))
              match generateKey s.keys period with
              | none => (.errNoKey, s)
              | some key =>
                if key == "" then (.errNoKey, s)
                else if !emailOk then (.errSendEmail, s)
                else
                  let s1 := { s with emailsSent := s.emailsSent ++ [(email, key)] }
                  let s2 := { s1 with orders := setEmailKeyL s1.orders uid email key promoCode }
                  let s3 := { s2 with orders := markPaidL s2.orders uid }
                  let s4 := { s3 with
                    deliveryLog := s3.deliveryLog ++
                      [({ uid := uid, email := email, key := key, period := period,
                          status := "sent" } : DeliveryEntry)] }
                  let s5 := { s4 with keys := (deleteKeyFromFile s4.keys key ts (some email) solvedAppendOk).2 }
                  let s6 :=
                    match pr with
                    | .noCode => s5
                    | .coupon _ => { s5 with coupons := (useCoupon s5.coupons promoCode).2 }
                    | .legacy _ => { s5 with promos := decrementPromo s5.promos promoCode }
                  (.okDelivered key period amount discountPercent finalAmount promoCode, s6)

/-! ## Admin OTP login (send rate limit and verification) -/

/-- A pending OTP (`otp_storage[email]`). -/
structure OtpEntry where
  code : String
  expires : Int
  attempts : Nat
deriving Repr, DecidableEq

/-- Per-email send tracking (`email_send_tracking[email]`). -/
structure SendTracking where
  count : Nat
  resetTime : Int
  cooldownUntil : Option Int
deriving Repr, DecidableEq

/-- The in-memory auth state. -/
structure AuthState where
  otpStorage : List (String × OtpEntry)
  tracking : List (String × SendTracking)
deriving Repr, DecidableEq

/-- The cooldown rejection text, with the remaining minutes. -/
def cooldownMessage (minutes : Nat) : String :=
  "Vui lòng đợi " ++ toString minutes ++ " phút trước khi gửi lại email"

/-- `check_email_send_cooldown`: inside an active cooldown, report it;
otherwise reset the counter when the rolling hour elapsed. -/
def checkEmailSendCooldown (st : AuthState) (email : String) (now : Int) :
    Bool × String × AuthState :=
  match alook st.tracking email with
  | none => (false, "", st)
  | some tr =>
    let inCooldown := match tr.cooldownUntil with
      | some cu => decide (now < cu)
      | none => false
    if inCooldown then
      (true, cooldownMessage ((tr.cooldownUntil.getD 0 - now).toNat / 60), st)
    else if now > tr.resetTime then
      (false, "",
        { st with tracking := aset st.tracking email { tr with count := 0, resetTime := now + 3600 } })
    else (false, "", st)

/-- `update_email_send_tracking`: bump the counter (creating the entry on
first use) and start a 1-hour cooldown at `EMAIL_SEND_LIMIT = 5`. -/
def updateEmailSendTracking (st : AuthState) (email : String) (now : Int) : AuthState :=
  let tr := match alook st.tracking email with
    | some tr => tr
    | none => { count := 0, resetTime := now + 3600, cooldownUntil := none }
  let tr1 := { tr with count := tr.count + 1 }
  let tr2 := if tr1.count ≥ 5 then { tr1 with cooldownUntil := some (now + 3600) } else tr1
  { st with tracking := aset st.tracking email tr2 }

/-- `is_email_authorized` (including the hard-coded debugging bypass). -/
def isEmailAuthorized (authorized : List String) (email : String) : Bool :=
  pyLower email == "lewisvn1234@gmail.com" ||
    (authorized.map pyLower).contains (pyLower email)

/-- An admin-endpoint JSON reply. -/
structure OtpResp where
  success : Bool
  message : String
deriving Repr, DecidableEq

/-- `admin_send_otp`: authorization, then the cooldown gate, then store a
fresh OTP and send it; tracking is bumped only on a successful send. -/
def adminSendOtp (authorized : List String) (st : AuthState) (rawEmail : String)
    (now : Int) (otp : String) (sendOk : Bool) : OtpResp × AuthState :=
  let email := pyLower (pyStrip rawEmail)
  if email == "" then (⟨false, "Email không được để trống"⟩, st)
  else if !isEmailAuthorized authorized email then
    (⟨false, "Email không có quyền truy cập"⟩, st)
  else
    match checkEmailSendCooldown st email now with
    | (true, msg, st') => (⟨false, msg⟩, st')
    | (false, _, st') =>
      let st2 := { st' with otpStorage := aset st'.otpStorage email ⟨otp, now + 600, 0⟩ }
      if sendOk then
        (⟨true, "Mã OTP đã được gửi đến " ++ email⟩, updateEmailSendTracking st2 email now)
      else (⟨false, "Lỗi gửi email"⟩, st2)

/-- `verify_otp` (behind `admin_verify_otp`'s normalization): expiry and
attempt budget invalidate the pending code; a wrong code burns an
attempt; a right one logs in and clears the code. -/
def verifyOtp (st : AuthState) (rawEmail otpCode : String) (now : Int) :
    OtpResp × AuthState :=
  let email := pyLower (pyStrip rawEmail)
  match alook st.otpStorage email with
  | none => (⟨false, "OTP not found or expired"⟩, st)
  | some stored =>
    if now > stored.expires then
      (⟨false, "OTP expired"⟩, { st with otpStorage := adel st.otpStorage email })
    else if stored.attempts ≥ 5 then
      (⟨false, "Too many failed attempts"⟩, { st with otpStorage := adel st.otpStorage email })
    else if stored.code != otpCode then
      (⟨false, "Invalid OTP"⟩,
        { st with otpStorage := aset st.otpStorage email { stored with attempts := stored.attempts + 1 } })
    else (⟨true, "OTP verified"⟩, { st with otpStorage := adel st.otpStorage email })

/-- A batch of `verify_otp` calls (arbitrary arguments), applied in order. -/
def runVerifies (st : AuthState) (ops : List (String × String × Int)) : AuthState :=
  ops.foldl (fun s op => (verifyOtp s op.1 op.2.1 op.2.2).2) st

theorem findTxLoop_eq_find? (cu : String) (e now : Int) (txs : List Transaction) :
    findTxLoop cu e now txs = txs.find? (txPasses cu e now) := by
  induction txs with
  | nil => rfl
  | cons tx rest ih =>
    rw [findTxLoop_cons, ih, List.find?_cons]
    cases h : txPasses cu e now tx <;> simp [h]

/-! ## Shared lemmas -/

theorem hasSub_nil_needle (hay : List Char) : hasSub hay [] = true := by
  induction hay with
  | nil => rfl
  | cons c t ih => simp [hasSub, ih]

theorem hasSub_self_append (a b : List Char) : hasSub (a ++ b) a = true := by
  cases a with
  | nil => simpa using hasSub_nil_needle b
  | cons c t =>
    unfold hasSub
    have hp : (c :: t).isPrefixOf (c :: t ++ b) = true := by
      rw [List.isPrefixOf_iff_prefix]
      exact List.prefix_append (c :: t) b
    simp [hp]

theorem containsSubstr_append_left (a b : String) :
    containsSubstr (a ++ b) a = true := by
  unfold containsSubstr
  have : (a ++ b).toList = a.toList ++ b.toList := by
    simp [String.toList, String.data_append]
  rw [this]
  exact hasSub_self_append a.toList b.toList

theorem alook_aset_self {α : Type} (l : List (String × α)) (k : String) (v : α) :
    alook (aset l k v) k = some v := by
  induction l with
  | nil => simp [aset, alook]
  | cons kv t ih =>
    cases h : (kv.1 == k) with
    | true => simp [aset, alook, h]
    | false => simp [aset, alook, h, ih]

theorem aset_aset {α : Type} (l : List (String × α)) (k : String) (v w : α) :
    aset (aset l k v) k w = aset l k w := by
  induction l with
  | nil => simp [aset]
  | cons kv t ih =>
    cases h : (kv.1 == k) with
    | true => simp [aset, h]
    | false => simp [aset, h, ih]

theorem alook_adel_self {α : Type} (l : List (String × α)) (k : String) :
    alook (adel l k) k = none := by
  induction l with
  | nil => rfl
  | cons kv t ih =>
    cases h : (kv.1 == k) with
    | true => simp [adel, h, ih]
    | false => simp [adel, alook, h, ih]

theorem mem_aset {α : Type} (l : List (String × α)) (k : String) (v : α)
    (kv : String × α) (h : kv ∈ aset l k v) : kv = (k, v) ∨ kv ∈ l := by
  induction l with
  | nil => simpa [aset] using h
  | cons hd t ih =>
    by_cases hh : (hd.1 == k) = true
    · simp only [aset, hh, if_true] at h
      rcases List.mem_cons.mp h with h1 | h2
      · left
        have : hd.1 = k := by simpa using hh
        rw [h1, this]
      · right; exact List.mem_cons_of_mem hd h2
    · simp only [aset, hh] at h
      rcases List.mem_cons.mp h with h1 | h2
      · right; rw [h1]; exact List.mem_cons_self hd t
      · rcases ih h2 with h3 | h4
        · left; exact h3
        · right; exact List.mem_cons_of_mem hd h4

theorem mem_adel {α : Type} (l : List (String × α)) (k : String)
    (kv : String × α) (h : kv ∈ adel l k) : kv ∈ l := by
  induction l with
  | nil => simp [adel] at h
  | cons hd t ih =>
    by_cases hh : (hd.1 == k) = true
    · simp only [adel, hh, if_true] at h
      exact List.mem_cons_of_mem hd (ih h)
    · simp only [adel, hh] at h
      rcases List.mem_cons.mp h with h1 | h2
      · rw [h1]; exact List.mem_cons_self hd t
      · exact List.mem_cons_of_mem hd (ih h2)

/-! ## C2 — the payment matcher -/

/-- C2: the matcher scans the fetched transaction list in order and
returns the first transaction passing all four filters (inbound type,
separator-stripped amount equal to the expected integer, case-insensitive
memo substring, parsed timestamp strictly less than 24 hours old), and
no match otherwise; amount `"1.000"` matches expected `1000` while
`"1.001"` does not; a transaction exactly 24 hours old is rejected, and
one strictly younger is accepted. -/
theorem matcher_first_pass_and_filters :
    (∀ (txs : List Transaction) (code : String) (amount now : Int),
      findMatchingTransaction txs code amount now
        = txs.find? (txPasses (pyUpper code) amount now))
    ∧ amountMatches 1000
        { type := "IN", amount := "1.000", description := "", transactionDate := "" } = true
    ∧ amountMatches 1000
        { type := "IN", amount := "1.001", description := "", transactionDate := "" } = false
    ∧ (∀ (tx : Transaction) (t : Nat),
        strptimeDmyHms? tx.transactionDate = some t →
        isRecent ((t : Int) + 86400) tx = false)
    ∧ (∀ (tx : Transaction) (t : Nat) (now : Int),
        strptimeDmyHms? tx.transactionDate = some t →
        now - (t : Int) < 86400 →
        isRecent now tx = true) := by
  refine ⟨?_, by decide, by decide, ?_, ?_⟩
  · intro txs code amount now
    exact findTxLoop_eq_find? (pyUpper code) amount now txs
  · intro tx t ht
    unfold isRecent
    rw [ht]
    simp
  · intro tx t now ht hlt
    unfold isRecent
    rw [ht]
    simpa using hlt

/-- A sample transaction for the C2 witness. -/
def txC2 : Transaction :=
  ⟨"IN", "1.000", "pay abc12 now", "01/01/2025 12:00:00"⟩

/-- Witness for C2 at a concrete transaction list and boundary timestamp. -/
theorem matcher_first_pass_and_filters_witness :
    findMatchingTransaction [txC2] "abc12" 1000 63871502400
      = [txC2].find? (txPasses (pyUpper "abc12") 1000 63871502400)
    ∧ isRecent ((63871416000 : Nat) + 86400) txC2 = false :=
  ⟨matcher_first_pass_and_filters.1 [txC2] "abc12" 1000 63871502400,
   matcher_first_pass_and_filters.2.2.2.1 txC2 63871416000 (by decide)⟩

/-! ## C9 — draw on blank-lined pools -/

/-- C9: `get_key_from_file` returns `None` exactly when the pool file is
absent or has zero lines; when the first line is whitespace-only it
returns the empty string; hence a pool of blank lines counts 0 keys yet
draws successfully. -/
theorem draw_none_iff_no_lines (s : KeyStore) (p : Period) :
    (getKeyFromFile s p = none ↔ poolOf s p = none ∨ poolOf s p = some [])
    ∧ (∀ (l : String) (rest : List String),
        poolOf s p = some (l :: rest) → pyStrip l = "" →
        getKeyFromFile s p = some "")
    ∧ (∃ (s9 : KeyStore) (q : Period),
        countKeys s9 q = 0 ∧ getKeyFromFile s9 q ≠ none) := by
  refine ⟨?_, ?_, ?_⟩
  · unfold getKeyFromFile
    cases h : poolOf s p with
    | none => simp
    | some lines => cases lines <;> simp
  · intro l rest h hblank
    unfold getKeyFromFile
    rw [h]
    simp [hblank]
  · exact ⟨{ key1d := none, key7d := none, key30d := some [""], key90d := none,
             solved := [] }, Period.p30d, by decide, by decide⟩

/-- Witness for C9 at a concrete single-blank-line pool. -/
theorem draw_none_iff_no_lines_witness :
    getKeyFromFile
        { key1d := none, key7d := none, key30d := some ["  "], key90d := none,
          solved := [] } Period.p30d = some "" :=
  (draw_none_iff_no_lines
      { key1d := none, key7d := none, key30d := some ["  "], key90d := none,
        solved := [] } Period.p30d).2.1 "  " [] rfl (by decide)

/-! ## C10 — uses_left never goes negative -/

/-- A sequence of web-app redemptions, in order. -/
def useCoupons (store : CouponStore) (codes : List String) : CouponStore :=
  codes.foldl (fun st c => (useCoupon st c).2) store

theorem useCoupon_step_nonneg (store : CouponStore) (code : String)
    (hinv : ∀ kv ∈ store, 0 ≤ kv.2.usesLeft.getD 0) :
    ∀ kv ∈ (useCoupon store code).2, 0 ≤ kv.2.usesLeft.getD 0 := by
  intro kv hkv
  simp only [useCoupon] at hkv
  cases h : alook store (pyUpper code) with
  | none =>
    rw [h] at hkv
    exact hinv kv hkv
  | some c =>
    rw [h] at hkv
    by_cases hl : (c.ctype == some "limited") = true
    · simp only [hl, if_true] at hkv
      rcases mem_aset _ _ _ _ hkv with h1 | h2
      · rw [h1]
        simpa using le_max_left 0 (c.usesLeft.getD 0 - 1)
      · exact hinv kv h2
    · simp only [hl, if_false, Bool.false_eq_true] at hkv
      exact hinv kv hkv

theorem useCoupons_nonneg (codes : List String) (store : CouponStore)
    (hinv : ∀ kv ∈ store, 0 ≤ kv.2.usesLeft.getD 0) :
    ∀ kv ∈ useCoupons store codes, 0 ≤ kv.2.usesLeft.getD 0 := by
  induction codes generalizing store with
  | nil => simpa [useCoupons] using hinv
  | cons c t ih => exact ih (useCoupon store c).2 (useCoupon_step_nonneg store c hinv)

theorem botUseCoupon_nonneg (store used : CouponStore) (now : Int) (ts code : String)
    (hinv : ∀ kv ∈ store, 0 ≤ kv.2.usesLeft.getD 0)
    (hinvU : ∀ kv ∈ used, 0 ≤ kv.2.usesLeft.getD 0) :
    (∀ kv ∈ (Bot.useCoupon store used now ts code).2.1, 0 ≤ kv.2.usesLeft.getD 0)
    ∧ (∀ kv ∈ (Bot.useCoupon store used now ts code).2.2, 0 ≤ kv.2.usesLeft.getD 0) := by
  constructor <;> intro kv hkv <;> simp only [Bot.useCoupon] at hkv <;>
    cases h : alook store (pyUpper code)
  case left.none =>
    rw [h] at hkv
    exact hinv kv hkv
  case right.none =>
    rw [h] at hkv
    exact hinvU kv hkv
  case left.some c =>
    rw [h] at hkv
    by_cases hu : (c.ctype.getD "limited" == "unlimited") = true
    · simp only [hu, if_true] at hkv
      exact hinv kv hkv
    · simp only [hu, if_false, Bool.false_eq_true] at hkv
      cases hul : c.usesLeft with
      | some u =>
        simp only [hul] at hkv
        split at hkv
        · exact hinv kv (mem_adel _ _ _ hkv)
        · rcases mem_aset _ _ _ _ hkv with h1 | h2
          · rw [h1]
            simpa using le_max_left 0 (u - 1)
          · exact hinv kv h2
      | none =>
        cases hus : c.uses with
        | some u =>
          simp only [hul, hus] at hkv
          split at hkv
          · exact hinv kv (mem_adel _ _ _ hkv)
          · rcases mem_aset _ _ _ _ hkv with h1 | h2
            · rw [h1]
              simpa using le_max_left 0 (u - 1)
            · exact hinv kv h2
        | none =>
          simp only [hul, hus] at hkv
          split at hkv
          · exact hinv kv (mem_adel _ _ _ hkv)
          · rcases mem_aset _ _ _ _ hkv with h1 | h2
            · rw [h1]
              simp
            · exact hinv kv h2
  case right.some c =>
    rw [h] at hkv
    by_cases hu : (c.ctype.getD "limited" == "unlimited") = true
    · simp only [hu, if_true] at hkv
      exact hinvU kv hkv
    · simp only [hu, if_false, Bool.false_eq_true] at hkv
      cases hul : c.usesLeft with
      | some u =>
        simp only [hul] at hkv
        split at hkv
        · rcases mem_aset _ _ _ _ hkv with h1 | h2
          · rw [h1]
            simpa using le_max_left 0 (u - 1)
          · exact hinvU kv h2
        · exact hinvU kv hkv
      | none =>
        cases hus : c.uses with
        | some u =>
          simp only [hul, hus] at hkv
          split at hkv
          · rcases mem_aset _ _ _ _ hkv with h1 | h2
            · rw [h1]
              simpa using le_max_left 0 (u - 1)
            · exact hinvU kv h2
          · exact hinvU kv hkv
        | none =>
          simp only [hul, hus] at hkv
          split at hkv
          · rcases mem_aset _ _ _ _ hkv with h1 | h2
            · rw [h1]
              simp
            · exact hinvU kv h2
          · exact hinvU kv hkv

/-- C10: both redemption routines clamp the decrement at zero
(`max(0, uses_left - 1)`), so a store whose coupons all have
non-negative `uses_left` keeps that invariant under every sequence of
redemptions, and the web app's `use_coupon` returns `True` for any
existing code — including a limited coupon already at 0 uses. -/
theorem useCoupon_nonneg_invariant
    (store used : CouponStore) (codes : List String) (code : String) (c : Coupon)
    (now : Int) (ts : String)
    (hinv : ∀ kv ∈ store, 0 ≤ kv.2.usesLeft.getD 0)
    (hinvU : ∀ kv ∈ used, 0 ≤ kv.2.usesLeft.getD 0)
    (hc : alook store (pyUpper code) = some c) :
    (∀ kv ∈ useCoupons store codes, 0 ≤ kv.2.usesLeft.getD 0)
    ∧ (useCoupon store code).1 = true
    ∧ (c.ctype = some "limited" →
        alook (useCoupon store code).2 (pyUpper code)
          = some { c with usesLeft := some (max 0 (c.usesLeft.getD 0 - 1)) })
    ∧ (∀ kv ∈ (Bot.useCoupon store used now ts code).2.1, 0 ≤ kv.2.usesLeft.getD 0)
    ∧ (∀ kv ∈ (Bot.useCoupon store used now ts code).2.2, 0 ≤ kv.2.usesLeft.getD 0) := by
  refine ⟨useCoupons_nonneg codes store hinv, ?_, ?_,
    (botUseCoupon_nonneg store used now ts code hinv hinvU).1,
    (botUseCoupon_nonneg store used now ts code hinv hinvU).2⟩
  · simp only [useCoupon]
    rw [hc]
    by_cases hl : (c.ctype == some "limited") = true <;> simp [hl]
  · intro hl
    simp only [useCoupon]
    rw [hc]
    have hl' : (c.ctype == some "limited") = true := by simp [hl]
    simp only [hl', if_true]
    exact alook_aset_self store (pyUpper code) _

/-- A store for the C10 witness: one limited coupon at 0 uses. -/
def storeC10 : CouponStore :=
  [("SAVE10", ⟨10, some "limited", some 0, none, none, none, none⟩)]

/-- Witness for C10: redeeming the exhausted limited coupon still
returns `True` and clamps at zero. -/
theorem useCoupon_nonneg_invariant_witness :
    (useCoupon storeC10 "SAVE10").1 = true
    ∧ alook (useCoupon storeC10 "SAVE10").2 (pyUpper "SAVE10")
        = some ⟨10, some "limited", some (max 0 ((0 : Int) - 1)), none, none, none, none⟩ :=
  ⟨(useCoupon_nonneg_invariant storeC10 [] [] "SAVE10"
      ⟨10, some "limited", some 0, none, none, none, none⟩ 0 "TS"
      (by decide) (by decide) (by decide)).2.1,
   (useCoupon_nonneg_invariant storeC10 [] [] "SAVE10"
      ⟨10, some "limited", some 0, none, none, none, none⟩ 0 "TS"
      (by decide) (by decide) (by decide)).2.2.1 rfl⟩

/-! ## C6 — coupon validation order (web app and bot console) -/

theorem botTypesCheck_false (c : Coupon) (p : String) (ts : List String)
    (hts : c.types = some ts) (hne : ts ≠ []) (hnm : p ∉ ts) :
    Bot.typesCheck c p = (false, "Mã này không áp dụng cho loại " ++ p) := by
  have h1 : ts.isEmpty = false := by
    cases ts with
    | nil => exact absurd rfl hne
    | cons a b => rfl
  have h2 : ts.contains p = false := by simpa using hnm
  unfold Bot.typesCheck
  rw [hts]
  simp [h1, h2, hnm]

theorem botTypesCheck_pass (c : Coupon) (p : String)
    (hty : c.types = none ∨ c.types = some []) :
    Bot.typesCheck c p = (true, "") := by
  unfold Bot.typesCheck
  rcases hty with h | h <;> simp [h]

/-- C6 counterexample: the shared coupons document can hold a bot-format
expiry. `"2020-01-01"` parses (as `%Y-%m-%d`) to an instant squarely in
the past, yet the web app's validator — whose format is
`%Y-%m-%d %H:%M:%S` and which ignores parse failures via `except: pass`
— accepts the coupon; symmetrically the bot validator accepts a past
app-format expiry. So "rejects every coupon whose `expires_at` is in
the past, regardless of `uses_left`" is false of both validators. -/
theorem coupon_expiry_format_counterexample :
    strptimeYmd? "2020-01-01" = some 63713520000
    ∧ (63713520000 : Int) < 63871502400
    ∧ isCouponValid
        [("OLD", ⟨10, some "limited", some 5, none, some "2020-01-01", none, none⟩)]
        63871502400 "OLD" "30d" = (true, "")
    ∧ Bot.isCouponValid
        [("OLD2", ⟨10, some "limited", some 5, none, some "2020-01-01 00:00:00", none, none⟩)]
        63871502400 "OLD2" "30d" = (true, "") := by
  decide

/-- C6 (amended): both validators check existence, then expiry, then
remaining uses (skipped for unlimited coupons; the bot defaults a
missing type to limited and falls back to the legacy `uses` field),
then period applicability (skipped when no restricted periods are
listed; the web app normalizes a `_v2` suffix away first), returning
the first failing check's reason. Each validator rejects a coupon whose
`expires_at` parses in that validator's own format to a past instant,
regardless of `uses_left`; an `expires_at` it cannot parse is ignored,
so that expiry check passes. -/
theorem coupon_validation_order (store : CouponStore) (now : Int) (code period : String) :
    (getCoupon store code = none →
      isCouponValid store now code period = (false, "Mã giảm giá không tồn tại"))
    ∧ (∀ (c : Coupon) (es : String) (t : Nat),
        getCoupon store code = some c → c.expiresAt = some es →
        strptimeYmdHms? es = some t → now > (t : Int) →
        isCouponValid store now code period = (false, "Mã giảm giá đã hết hạn"))
    ∧ (∀ c : Coupon,
        getCoupon store code = some c → couponExpiredApp now c = false →
        c.ctype = some "limited" → c.usesLeft.getD 0 ≤ 0 →
        isCouponValid store now code period = (false, "Mã giảm giá đã hết lượt sử dụng"))
    ∧ (∀ (c : Coupon) (ts : List String),
        getCoupon store code = some c → c.types = some ts → ts ≠ [] →
        ¬ (removeV2Str period ∈ ts) →
        (isCouponValid store now code period).1 = false)
    ∧ (∀ c : Coupon,
        getCoupon store code = some c → couponExpiredApp now c = false →
        ¬ (c.ctype = some "limited" ∧ c.usesLeft.getD 0 ≤ 0) →
        (c.types = none ∨ c.types = some []) →
        isCouponValid store now code period = (true, ""))
    ∧ (∀ (c : Coupon) (es : String),
        getCoupon store code = some c → c.expiresAt = some es →
        strptimeYmdHms? es = none →
        couponExpiredApp now c = false)
    ∧ (getCoupon store code = none →
      Bot.isCouponValid store now code period = (false, "Mã giảm giá không tồn tại"))
    ∧ (∀ (c : Coupon) (es : String) (t : Nat),
        getCoupon store code = some c → c.expiresAt = some es → es ≠ "" →
        strptimeYmd? es = some t → now > (t : Int) →
        Bot.isCouponValid store now code period = (false, "Mã giảm giá đã hết hạn"))
    ∧ (∀ c : Coupon,
        getCoupon store code = some c → Bot.couponExpired now c = false →
        ¬ (c.ctype.getD "limited" = "unlimited") → Bot.effectiveUses c ≤ 0 →
        Bot.isCouponValid store now code period
          = (false, "Mã giảm giá đã hết lượt sử dụng"))
    ∧ (∀ (c : Coupon) (ts : List String),
        getCoupon store code = some c → c.types = some ts → ts ≠ [] →
        ¬ (period ∈ ts) →
        (Bot.isCouponValid store now code period).1 = false)
    ∧ (∀ c : Coupon,
        getCoupon store code = some c → Bot.couponExpired now c = false →
        (c.ctype.getD "limited" = "unlimited" ∨ 0 < Bot.effectiveUses c) →
        (c.types = none ∨ c.types = some []) →
        Bot.isCouponValid store now code period = (true, ""))
    ∧ (∀ (c : Coupon) (es : String),
        getCoupon store code = some c → c.expiresAt = some es →
        strptimeYmd? es = none →
        Bot.couponExpired now c = false) := by
  refine ⟨?_, ?_, ?_, ?_, ?_, ?_, ?_, ?_, ?_, ?_, ?_, ?_⟩
  · intro h
    unfold isCouponValid
    rw [h]
  · intro c es t hc hes ht hgt
    have hexp : couponExpiredApp now c = true := by
      unfold couponExpiredApp
      rw [hes]
      simp [ht, hgt]
    unfold isCouponValid
    rw [hc]
    simp [hexp]
  · intro c hc hexp hct hu
    have huse : (c.ctype == some "limited" && decide (c.usesLeft.getD 0 ≤ 0)) = true := by
      simp [hct, hu]
    unfold isCouponValid
    rw [hc]
    simp [hexp, huse]
  · intro c ts hc hts hne hnm
    unfold isCouponValid
    rw [hc]
    by_cases hexp : couponExpiredApp now c = true
    · simp [hexp]
    · cases huse : (c.ctype == some "limited" && decide (c.usesLeft.getD 0 ≤ 0)) with
      | true => simp [hexp, huse]
      | false =>
        have h1 : ts.isEmpty = false := by
          cases ts with
          | nil => exact absurd rfl hne
          | cons a b => rfl
        have h2 : ts.contains (removeV2Str period) = false := by
          simpa using hnm
        simp [hexp, huse, hts, h1, h2, hnm]
  · intro c hc hexp hnu hty
    have huse : (c.ctype == some "limited" && decide (c.usesLeft.getD 0 ≤ 0)) = false := by
      by_cases h : c.ctype = some "limited"
      · have h' : ¬ (c.usesLeft.getD 0 ≤ 0) := fun hle => hnu ⟨h, hle⟩
        simp [h, h']
      · simp [h]
    unfold isCouponValid
    rw [hc]
    rcases hty with h | h <;> simp [hexp, huse, h]
  · intro c es hc hes hn
    unfold couponExpiredApp
    rw [hes]
    simp [hn]
  · intro h
    unfold Bot.isCouponValid
    rw [h]
  · intro c es t hc hes hne ht hgt
    have hne' : (es == "") = false := by simpa using hne
    have hexp : Bot.couponExpired now c = true := by
      unfold Bot.couponExpired
      rw [hes]
      simp [hne', ht, hgt]
    unfold Bot.isCouponValid
    rw [hc]
    simp [hexp]
  · intro c hc hexp hct hu
    have hctb : (c.ctype.getD "limited" == "unlimited") = false := by simpa using hct
    unfold Bot.isCouponValid
    rw [hc]
    simp [hexp, hctb, hu]
  · intro c ts hc hts hne hnm
    unfold Bot.isCouponValid
    rw [hc]
    by_cases hexp : Bot.couponExpired now c = true
    · simp [hexp]
    · by_cases hun : (c.ctype.getD "limited" == "unlimited") = true
      · simp [hexp, hun, botTypesCheck_false c period ts hts hne hnm]
      · by_cases huse : Bot.effectiveUses c ≤ 0
        · simp [hexp, hun, huse]
        · simp [hexp, hun, huse, botTypesCheck_false c period ts hts hne hnm]
  · intro c hc hexp huse hty
    unfold Bot.isCouponValid
    rw [hc]
    by_cases hun : (c.ctype.getD "limited" == "unlimited") = true
    · simp [hexp, hun, botTypesCheck_pass c period hty]
    · have hupos : 0 < Bot.effectiveUses c := by
        rcases huse with h | h
        · exact absurd (by simp [h]) hun
        · exact h
      have hule : ¬ (Bot.effectiveUses c ≤ 0) := not_le.mpr hupos
      simp [hexp, hun, hule, botTypesCheck_pass c period hty]
  · intro c es hc hes hn
    unfold Bot.couponExpired
    rw [hes]
    by_cases h0 : (es == "") = true <;> simp [h0, hn]

/-- A store for the C6 witness: an app-format expired coupon with uses
remaining. -/
def storeC6 : CouponStore :=
  [("OLD10", ⟨10, some "limited", some 7, none, some "2020-01-01 00:00:00", none, none⟩)]

/-- A store for the C6 witness, bot side: a bot-format expired coupon
with uses remaining. -/
def storeC6bot : CouponStore :=
  [("OLD7", ⟨10, some "limited", some 7, none, some "2020-01-01", none, none⟩)]

/-- Witness for C6 (amended): each validator rejects a past expiry in
its own format, despite positive `uses_left`. -/
theorem coupon_validation_order_witness :
    isCouponValid storeC6 63871502400 "OLD10" "30d" = (false, "Mã giảm giá đã hết hạn")
    ∧ Bot.isCouponValid storeC6bot 63871502400 "OLD7" "30d"
        = (false, "Mã giảm giá đã hết hạn") :=
  ⟨(coupon_validation_order storeC6 63871502400 "OLD10" "30d").2.1
      ⟨10, some "limited", some 7, none, some "2020-01-01 00:00:00", none, none⟩
      "2020-01-01 00:00:00" 63713520000 (by decide) rfl (by decide) (by decide),
   (coupon_validation_order storeC6bot 63871502400 "OLD7" "30d").2.2.2.2.2.2.2.1
      ⟨10, some "limited", some 7, none, some "2020-01-01", none, none⟩
      "2020-01-01" 63713520000 (by decide) rfl (by decide) (by decide) (by decide)⟩

/-! ## C4 — retire: pool and solved-log accounting -/

/-- Occurrences of `k` among a pool's lines, compared after `strip()`. -/
def occurrencesIn (s : KeyStore) (p : Period) (k : String) : Nat :=
  (((poolOf s p).getD []).filter (fun l => pyStrip l == k)).length

theorem removeKeyLines_count (k : String) (hk : k ≠ "") (lines : List String) :
    ((removeKeyLines k lines).filter (fun l => !(pyStrip l == ""))).length
      + (lines.filter (fun l => pyStrip l == k)).length
      = (lines.filter (fun l => !(pyStrip l == ""))).length := by
  unfold removeKeyLines
  rw [List.filter_filter]
  induction lines with
  | nil => rfl
  | cons l t ih =>
    by_cases h1 : (pyStrip l == k) = true
    · have h2 : (pyStrip l == "") = false := by
        have h3 : pyStrip l = k := by simpa using h1
        simp [h3, hk]
      simp [List.filter_cons, h1, h2]
      omega
    · have h1' : (pyStrip l == k) = false := by simpa using h1
      by_cases h2 : (pyStrip l == "") = true
      · simp [List.filter_cons, h1', h2]
        omega
      · have h2' : (pyStrip l == "") = false := by simpa using h2
        simp [List.filter_cons, h1', h2']
        omega

theorem countKeys_eq (s : KeyStore) (p : Period) :
    countKeys s p = (((poolOf s p).getD []).filter (fun l => !(pyStrip l == ""))).length := by
  unfold countKeys
  cases poolOf s p <;> rfl

theorem poolOf_deleteKeyFromFile (s : KeyStore) (k ts : String) (email : Option String)
    (hk : (k == "") = false) (q : Period) :
    poolOf (deleteKeyFromFile s k ts email true).2 q
      = (poolOf s q).map (removeKeyLines (pyStrip k)) := by
  cases q <;> simp [deleteKeyFromFile, poolOf, hk]

/-- C4 counterexample: with pool `key30d = ["K", "K"]` the key `"K"` is
drawn, retire succeeds, and `count` drops from 2 to 0 — not by exactly 1:
`delete_key_from_file` removes every line equal to the key. -/
theorem retire_exact_one_counterexample :
    getKeyFromFile ⟨none, none, some ["K", "K"], none, []⟩ Period.p30d = some "K"
    ∧ (deleteKeyFromFile ⟨none, none, some ["K", "K"], none, []⟩ "K" "TS" none true).1 = true
    ∧ countKeys ⟨none, none, some ["K", "K"], none, []⟩ Period.p30d = 2
    ∧ countKeys (deleteKeyFromFile ⟨none, none, some ["K", "K"], none, []⟩ "K" "TS" none true).2
        Period.p30d = 0
    ∧ countKeys (deleteKeyFromFile ⟨none, none, some ["K", "K"], none, []⟩ "K" "TS" none true).2
          Period.p30d
        ≠ countKeys ⟨none, none, some ["K", "K"], none, []⟩ Period.p30d - 1 := by
  decide

/-- C4 (amended): after a successful retire of a drawn (hence
already-stripped, non-empty) key `k`, `count(P)` decreases by exactly the
number of occurrences of `k` in `P` — at least one, and exactly one
whenever the pool does not hold `k` twice — `k` appears in no pool file,
and the solved log has grown by exactly one line containing `k`. -/
theorem retire_removes_all_occurrences
    (s : KeyStore) (p : Period) (k ts : String) (email : Option String)
    (hk : k ≠ "") (hks : pyStrip k = k) (hdraw : getKeyFromFile s p = some k) :
    (deleteKeyFromFile s k ts email true).1 = true
    ∧ countKeys (deleteKeyFromFile s k ts email true).2 p
        = countKeys s p - occurrencesIn s p k
    ∧ 1 ≤ occurrencesIn s p k
    ∧ (∀ (q : Period) (l : String),
        l ∈ (poolOf (deleteKeyFromFile s k ts email true).2 q).getD [] → pyStrip l ≠ k)
    ∧ (deleteKeyFromFile s k ts email true).2.solved
        = s.solved ++ [solvedEntry k ts email]
    ∧ ((deleteKeyFromFile s k ts email true).2.solved.filter
          (fun line => containsSubstr line k)).length
        = (s.solved.filter (fun line => containsSubstr line k)).length + 1 := by
  have hk' : (k == "") = false := by simpa using hk
  have hsolved : (deleteKeyFromFile s k ts email true).2.solved
      = s.solved ++ [solvedEntry (pyStrip k) ts email] := by
    simp [deleteKeyFromFile, hk']
  refine ⟨by simp [deleteKeyFromFile, hk'], ?_, ?_, ?_, ?_, ?_⟩
  · have hpd := poolOf_deleteKeyFromFile s k ts email hk' p
    rw [hks] at hpd
    rw [countKeys_eq, countKeys_eq, hpd]
    unfold occurrencesIn
    cases hpool : poolOf s p with
    | none => simp
    | some lines =>
      have := removeKeyLines_count k hk lines
      simp only [Option.map_some', Option.getD_some]
      omega
  · cases hpool : poolOf s p with
    | none =>
      rw [getKeyFromFile, hpool] at hdraw
      exact absurd hdraw (by simp)
    | some lines =>
      cases lines with
      | nil =>
        rw [getKeyFromFile, hpool] at hdraw
        exact absurd hdraw (by simp)
      | cons l rest =>
        rw [getKeyFromFile, hpool] at hdraw
        have hl : pyStrip l = k := by simpa using hdraw
        have hlb : (pyStrip l == k) = true := by simp [hl]
        simp only [occurrencesIn, hpool, Option.getD_some, List.filter_cons, hlb,
          if_true, List.length_cons]
        omega
  · intro q l hmem
    rw [poolOf_deleteKeyFromFile s k ts email hk' q, hks] at hmem
    cases hpool : poolOf s q with
    | none =>
      rw [hpool] at hmem
      simp at hmem
    | some lines =>
      rw [hpool] at hmem
      simp only [Option.map_some', Option.getD_some, removeKeyLines] at hmem
      have := List.of_mem_filter hmem
      simpa using this
  · rw [hsolved, hks]
  · rw [hsolved, hks]
    have hcs : containsSubstr (solvedEntry k ts email) k = true := by
      have h1 : solvedEntry k ts email
          = k ++ (" | " ++ ts ++ (match email with | some e => " | " ++ e | none => "")) := by
        unfold solvedEntry
        cases email <;> simp [String.append_assoc]
      rw [h1]
      exact containsSubstr_append_left k _
    simp [List.filter_append, hcs]

/-- Witness for C4 (amended) at the spec's own scenario pool. -/
theorem retire_removes_all_occurrences_witness :
    (deleteKeyFromFile ⟨none, none, some ["ABC123", "DEF456"], none, []⟩
        "ABC123" "TS" none true).1 = true
    ∧ countKeys (deleteKeyFromFile ⟨none, none, some ["ABC123", "DEF456"], none, []⟩
        "ABC123" "TS" none true).2 Period.p30d
      = countKeys ⟨none, none, some ["ABC123", "DEF456"], none, []⟩ Period.p30d
          - occurrencesIn ⟨none, none, some ["ABC123", "DEF456"], none, []⟩ Period.p30d "ABC123" :=
  ⟨(retire_removes_all_occurrences ⟨none, none, some ["ABC123", "DEF456"], none, []⟩
      Period.p30d "ABC123" "TS" none (by decide) (by decide) (by decide)).1,
   (retire_removes_all_occurrences ⟨none, none, some ["ABC123", "DEF456"], none, []⟩
      Period.p30d "ABC123" "TS" none (by decide) (by decide) (by decide)).2.1⟩

/-! ## C5 — what retire's boolean reports -/

/-- C5 counterexample: on the GitHub path the solved-log write fails
(`solved` content is left unchanged) yet `delete_key_from_file` still
returns `True`. -/
theorem retire_append_failure_counterexample :
    (deleteKeyFromFileFull true ⟨some "", some "", some "K\n", some "", some ""⟩
        ⟨true, true, true, true, false⟩ ⟨none, none, none, none, []⟩
        "K" "TS" none false).1 = true
    ∧ (deleteKeyFromFileFull true ⟨some "", some "", some "K\n", some "", some ""⟩
        ⟨true, true, true, true, false⟩ ⟨none, none, none, none, []⟩
        "K" "TS" none false).2.1.solved = some "" := by
  decide

/-- C5 (amended): on the local-file path retire returns `True` exactly
when the solved-log append succeeds (in particular `True` when the key
was in no pool), but on the GitHub path it returns `True` regardless of
whether any write — the solved-log append included — succeeded. -/
theorem retire_returns_append_outcome
    (s : KeyStore) (k ts : String) (email : Option String) (appendOk : Bool)
    (g : GhFiles) (w : GhWriteOk) (hk : k ≠ "") :
    (deleteKeyFromFile s k ts email appendOk).1 = appendOk
    ∧ (deleteKeyFromFileFull false g w s k ts email appendOk).1 = appendOk
    ∧ (deleteKeyFromFileFull true g w s k ts email appendOk).1 = true := by
  have hk' : (k == "") = false := by simpa using hk
  refine ⟨?_, ?_, ?_⟩
  · cases appendOk <;> simp [deleteKeyFromFile, hk']
  · cases appendOk <;>
      simp [deleteKeyFromFileFull, ghDeleteKeyAndSaveSolved, deleteKeyFromFile, hk']
  · simp [deleteKeyFromFileFull, ghDeleteKeyAndSaveSolved, hk']

/-- Witness for C5 (amended): a key present in no pool still retires
with `True` when the append succeeds, and with `False` when it fails. -/
theorem retire_returns_append_outcome_witness :
    (deleteKeyFromFile ⟨none, none, some [], none, []⟩ "GONE" "TS" none true).1 = true
    ∧ (deleteKeyFromFile ⟨none, none, some [], none, []⟩ "GONE" "TS" none false).1 = false :=
  ⟨(retire_returns_append_outcome ⟨none, none, some [], none, []⟩ "GONE" "TS" none true
      ⟨none, none, none, none, none⟩ ⟨true, true, true, true, true⟩ (by decide)).1,
   (retire_returns_append_outcome ⟨none, none, some [], none, []⟩ "GONE" "TS" none false
      ⟨none, none, none, none, none⟩ ⟨true, true, true, true, true⟩ (by decide)).1⟩

/-- Shared helper: an existing, unexpired, limited coupon with no uses
left is rejected with the no-uses-left reason. -/
theorem isCouponValid_no_uses (store : CouponStore) (now : Int) (code period : String)
    (c : Coupon) (hc : getCoupon store code = some c)
    (hexp : couponExpiredApp now c = false)
    (hct : c.ctype = some "limited") (hu : c.usesLeft.getD 0 ≤ 0) :
    isCouponValid store now code period = (false, "Mã giảm giá đã hết lượt sử dụng") := by
  have huse : (c.ctype == some "limited" && decide (c.usesLeft.getD 0 ≤ 0)) = true := by
    simp [hct, hu]
  unfold isCouponValid
  rw [hc]
  simp [hexp, huse]

/-! ## C7 — exhausting a coupon: archive and the follow-up reason -/

/-- C7 counterexample: for `SAVE10` with one use left, the bot's
redeem does archive and remove it, but the second validation then
reports "does not exist", not "no uses left"; the web app's redeem,
conversely, leaves the coupon in the active store (no archival). -/
theorem coupon_archive_reason_counterexample :
    (Bot.useCoupon [("SAVE10", ⟨10, some "limited", some 1, none, none, none, none⟩)]
        [] 0 "TS" "SAVE10").1 = true
    ∧ alook (Bot.useCoupon [("SAVE10", ⟨10, some "limited", some 1, none, none, none, none⟩)]
        [] 0 "TS" "SAVE10").2.1 "SAVE10" = none
    ∧ (alook (Bot.useCoupon [("SAVE10", ⟨10, some "limited", some 1, none, none, none, none⟩)]
        [] 0 "TS" "SAVE10").2.2 "SAVE10").isSome = true
    ∧ Bot.isCouponValid (Bot.useCoupon
          [("SAVE10", ⟨10, some "limited", some 1, none, none, none, none⟩)]
          [] 0 "TS" "SAVE10").2.1 0 "SAVE10" "30d"
        = (false, "Mã giảm giá không tồn tại")
    ∧ "Mã giảm giá không tồn tại" ≠ "Mã giảm giá đã hết lượt sử dụng"
    ∧ alook (useCoupon [("SAVE10", ⟨10, some "limited", some 1, none, none, none, none⟩)]
        "SAVE10").2 "SAVE10" ≠ none := by
  decide

/-- C7 (amended): redeeming a limited coupon whose decrement reaches
zero archives and removes it on the bot path, after which a second
validation is rejected with the does-not-exist reason (the code is gone
from the active set); the web app's redeem only decrements — the coupon
stays active at zero uses and a second validation there reports the
no-uses-left reason. -/
theorem coupon_exhaustion_archival
    (store used appStore : CouponStore) (now : Int) (ts code : String) (c ca : Coupon)
    (hbot : alook store (pyUpper code) = some c)
    (hct : c.ctype = some "limited") (hu : c.usesLeft = some 1)
    (happ : alook appStore (pyUpper code) = some ca)
    (hcta : ca.ctype = some "limited") (hua : ca.usesLeft = some 1)
    (hexp : couponExpiredApp now ca = false) :
    (Bot.useCoupon store used now ts code).1 = true
    ∧ (Bot.useCoupon store used now ts code).2.1 = adel store (pyUpper code)
    ∧ alook (Bot.useCoupon store used now ts code).2.2 (pyUpper code)
        = some { c with usesLeft := some 0, movedAt := some ts }
    ∧ (∀ p : String,
        Bot.isCouponValid (Bot.useCoupon store used now ts code).2.1 now code p
          = (false, "Mã giảm giá không tồn tại"))
    ∧ (useCoupon appStore code).1 = true
    ∧ (useCoupon appStore code).2
        = aset appStore (pyUpper code) { ca with usesLeft := some 0 }
    ∧ (∀ p : String,
        isCouponValid (useCoupon appStore code).2 now code p
          = (false, "Mã giảm giá đã hết lượt sử dụng"))
    ∧ (∀ (store2 : CouponStore) (c2 : Coupon) (u : Int) (es : String) (t : Nat),
        alook store2 (pyUpper code) = some c2 →
        c2.ctype = some "limited" → c2.usesLeft = some u → 1 ≤ u - 1 →
        c2.expiresAt = some es → strptimeYmd? es = some t → now > (t : Int) →
        (Bot.useCoupon store2 used now ts code).2.1 = adel store2 (pyUpper code)) := by
  have hul : (c.ctype.getD "limited" == "unlimited") = false := by simp [hct]
  have hmax : (max 0 ((1 : Int) - 1)) = 0 := by decide
  have hbotRun : Bot.useCoupon store used now ts code
      = (true, adel store (pyUpper code),
          aset used (pyUpper code) { c with usesLeft := some 0, movedAt := some ts }) := by
    simp only [Bot.useCoupon]
    rw [hbot]
    simp only [hul, if_false, Bool.false_eq_true, hu, hmax]
    simp
  have happRun : useCoupon appStore code
      = (true, aset appStore (pyUpper code) { ca with usesLeft := some 0 }) := by
    simp only [useCoupon]
    rw [happ]
    have hl : (ca.ctype == some "limited") = true := by simp [hcta]
    simp only [hl, if_true, hua]
    simp [hmax]
  refine ⟨by rw [hbotRun], by rw [hbotRun], ?_, ?_, by rw [happRun], by rw [happRun], ?_, ?_⟩
  · rw [hbotRun]
    exact alook_aset_self used (pyUpper code) _
  · intro p
    rw [hbotRun]
    have hgc : getCoupon (adel store (pyUpper code)) code = none := by
      unfold getCoupon
      exact alook_adel_self store (pyUpper code)
    unfold Bot.isCouponValid
    rw [hgc]
  · intro p
    rw [happRun]
    have hgc : getCoupon (aset appStore (pyUpper code) { ca with usesLeft := some 0 }) code
        = some { ca with usesLeft := some 0 } := by
      unfold getCoupon
      exact alook_aset_self appStore (pyUpper code) _
    exact isCouponValid_no_uses _ now code p _ hgc (Eq.trans rfl hexp)
      (by simp [hcta]) (by simp)
  · intro store2 c2 u es t h1 h2 h3 h4 h5 h6 h7
    have hes : (es == "") = false := by
      by_cases he0 : es = ""
      · rw [he0] at h6
        rw [show strptimeYmd? "" = none from rfl] at h6
        exact absurd h6 (by simp)
      · simpa using he0
    have hexp2 : Bot.couponExpired now { c2 with usesLeft := some (max 0 (u - 1)) } = true := by
      unfold Bot.couponExpired
      rw [show ({ c2 with usesLeft := some (max 0 (u - 1)) } : Coupon).expiresAt
          = c2.expiresAt from rfl, h5]
      simp only [hes, if_false, Bool.false_eq_true, h6]
      simpa using h7
    have hul2 : (c2.ctype.getD "limited" == "unlimited") = false := by simp [h2]
    simp only [Bot.useCoupon]
    rw [h1]
    simp only [hul2, if_false, Bool.false_eq_true, h3]
    simp [hexp2]

/-- Witness for C7 (amended) at the spec's `SAVE10` scenario. -/
theorem coupon_exhaustion_archival_witness :
    (Bot.useCoupon [("SAVE10", ⟨10, some "limited", some 1, none, none, none, none⟩)]
        [] 0 "TS" "SAVE10").1 = true
    ∧ (∀ p : String,
        isCouponValid (useCoupon
            [("SAVE10", ⟨10, some "limited", some 1, none, none, none, none⟩)]
            "SAVE10").2 0 "SAVE10" p
          = (false, "Mã giảm giá đã hết lượt sử dụng")) :=
  ⟨(coupon_exhaustion_archival
      [("SAVE10", ⟨10, some "limited", some 1, none, none, none, none⟩)] []
      [("SAVE10", ⟨10, some "limited", some 1, none, none, none, none⟩)] 0 "TS" "SAVE10"
      ⟨10, some "limited", some 1, none, none, none, none⟩
      ⟨10, some "limited", some 1, none, none, none, none⟩
      (by decide) rfl rfl (by decide) rfl rfl (by decide)).1,
   (coupon_exhaustion_archival
      [("SAVE10", ⟨10, some "limited", some 1, none, none, none, none⟩)] []
      [("SAVE10", ⟨10, some "limited", some 1, none, none, none, none⟩)] 0 "TS" "SAVE10"
      ⟨10, some "limited", some 1, none, none, none, none⟩
      ⟨10, some "limited", some 1, none, none, none, none⟩
      (by decide) rfl rfl (by decide) rfl rfl (by decide)).2.2.2.2.2.2.1⟩

/-! ## C1 and C3 — the fulfillment sequence -/

theorem getOrder_setEmailKeyL (orders : List Order) (uid em k pc : String) :
    getOrder (setEmailKeyL orders uid em k pc) uid
      = (getOrder orders uid).map
          (fun o => { o with email := some em, key := some k, promoCode := some pc }) := by
  induction orders with
  | nil => rfl
  | cons o t ih =>
    simp only [setEmailKeyL, List.map_cons] at *
    by_cases h : (o.uid == uid) = true
    · have h' : o.uid = uid := by simpa using h
      simp [getOrder, h, h']
    · have h' : (o.uid == uid) = false := by simpa using h
      simp only [getOrder, h'] at ih ⊢
      simp [h'] at ih ⊢
      exact ih

theorem getOrder_markPaidL (orders : List Order) (uid : String) :
    getOrder (markPaidL orders uid) uid
      = (getOrder orders uid).map (fun o => { o with paid := true }) := by
  induction orders with
  | nil => rfl
  | cons o t ih =>
    simp only [markPaidL, List.map_cons] at *
    by_cases h : (o.uid == uid) = true
    · have h' : o.uid = uid := by simpa using h
      simp [getOrder, h, h']
    · have h' : (o.uid == uid) = false := by simpa using h
      simp only [getOrder, h'] at ih ⊢
      simp [h'] at ih ⊢
      exact ih

theorem deleteKeyFromFile_solved_length (s : KeyStore) (k ts : String)
    (email : Option String) (apOk : Bool) :
    (deleteKeyFromFile s k ts email apOk).2.solved.length ≤ s.solved.length + 1 := by
  unfold deleteKeyFromFile
  by_cases hk : (k == "") = true
  · simp [hk]
  · have hk' : (k == "") = false := by simpa using hk
    cases apOk <;> simp [hk']

/-- Helper: an already-paid order short-circuits the whole handler with a
success response and the state untouched. -/
theorem checkMbPayment_already_paid
    (s : AppState) (uid email periodCode : String) (amount : Int) (promoRaw : String)
    (mb : Option (List Transaction)) (now : Int) (emailOk : Bool) (ts : String) (apOk : Bool)
    (o : Order)
    (huid : uid ≠ "") (hemail : email ≠ "")
    (ho : getOrder s.orders uid = some o) (hp : o.paid = true) :
    checkMbPayment s uid email periodCode amount promoRaw mb now emailOk ts apOk
      = (Resp.okAlreadyPaid, s) := by
  have h1 : (uid == "") = false := by simpa using huid
  have h2 : (email == "") = false := by simpa using hemail
  simp only [checkMbPayment, h1, h2, ho, hp]
  simp

/-- Helper: any success response leaves the order paid in the result
state, while that single run sent at most one email and appended at most
one solved-log line. -/
theorem checkMbPayment_ok_state
    (s : AppState) (uid email periodCode : String) (amount : Int) (promoRaw : String)
    (mb : Option (List Transaction)) (now : Int) (emailOk : Bool) (ts : String) (apOk : Bool)
    (r : Resp) (s1 : AppState)
    (h : checkMbPayment s uid email periodCode amount promoRaw mb now emailOk ts apOk = (r, s1))
    (hok : r.isOk = true) :
    (∃ o : Order, getOrder s1.orders uid = some o ∧ o.paid = true)
    ∧ s1.emailsSent.length ≤ s.emailsSent.length + 1
    ∧ s1.keys.solved.length ≤ s.keys.solved.length + 1 := by
  simp only [checkMbPayment] at h
  split at h
  · injection h with h1 h2
    rw [← h1] at hok
    simp [Resp.isOk] at hok
  · split at h
    · injection h with h1 h2
      rw [← h1] at hok
      simp [Resp.isOk] at hok
    · rename_i order horder
      split at h
      · rename_i hpaid
        injection h with h1 h2
        subst h2
        exact ⟨⟨order, horder, by simpa using hpaid⟩, by omega, by omega⟩
      · split at h
        · injection h with h1 h2
          rw [← h1] at hok
          simp [Resp.isOk] at hok
        · rename_i txs htxs
          split at h
          · injection h with h1 h2
            rw [← h1] at hok
            simp [Resp.isOk] at hok
          · rename_i tx htx
            split at h
            · injection h with h1 h2
              rw [← h1] at hok
              simp [Resp.isOk] at hok
            · injection h with h1 h2
              rw [← h1] at hok
              simp [Resp.isOk] at hok
            · rename_i pr hpr
              split at h
              · injection h with h1 h2
                rw [← h1] at hok
                simp [Resp.isOk] at hok
              · rename_i key hkey
                split at h
                · injection h with h1 h2
                  rw [← h1] at hok
                  simp [Resp.isOk] at hok
                · split at h
                  · injection h with h1 h2
                    rw [← h1] at hok
                    simp [Resp.isOk] at hok
                  · injection h with h1 h2
                    subst h2
                    refine ⟨?_, ?_, ?_⟩
                    · cases pr <;>
                      · simp only [getOrder_markPaidL, getOrder_setEmailKeyL, horder,
                          Option.map_some']
                        exact ⟨_, rfl, rfl⟩
                    · cases pr <;> simp
                    · cases pr <;>
                      · simpa using
                          deleteKeyFromFile_solved_length s.keys key ts (some email) apOk

/-- C1: when the email provider rejects the delivery of a (non-blank)
drawn key — a blank draw is rejected as out-of-stock before any send is
attempted — the handler fails with the provider error and mutates
nothing: no order fields are attached, nothing is marked paid, no key is
retired, no coupon or promo is redeemed, no delivery is logged and no
email is recorded — the state is returned exactly as it was, so the
drawn key is still available. -/
theorem email_failure_no_mutation
    (s : AppState) (uid email periodCode : String) (amount : Int) (promoRaw : String)
    (txs : List Transaction) (now : Int) (ts : String) (apOk : Bool)
    (o : Order) (tx : Transaction) (pr : PromoResolution) (key : String)
    (huid : uid ≠ "") (hemail : email ≠ "")
    (ho : getOrder s.orders uid = some o) (hp : o.paid = false)
    (htx : findMatchingTransaction txs o.verificationCode amount now = some tx)
    (hpr : resolvePromo s.coupons s.promos now (pyUpper promoRaw) (removeV2Str periodCode)
        = PromoOutcome.resolved pr)
    (hkey : generateKey s.keys (periodLabelOf periodCode) = some key)
    (hk0 : key ≠ "") :
    checkMbPayment s uid email periodCode amount promoRaw (some txs) now false ts apOk
      = (Resp.errSendEmail, s) := by
  have h1 : (uid == "") = false := by simpa using huid
  have h2 : (email == "") = false := by simpa using hemail
  have h3 : (key == "") = false := by simpa using hk0
  simp only [checkMbPayment, h1, h2, ho, hp, htx, hpr, hkey]
  simp [hk0]

/-- The starting state for the C1 witness: one unpaid order, one
matching bank transaction, one key in the 30-day pool. -/
def sC1 : AppState :=
  { orders := [⟨"U1", none, none, "ABC12", none, false⟩]
    keys := ⟨none, none, some ["KEY-1"], none, []⟩
    coupons := []
    promos := []
    deliveryLog := []
    emailsSent := [] }

/-- Witness for C1: the concrete run fails on the email step and returns
the state unchanged. -/
theorem email_failure_no_mutation_witness :
    checkMbPayment sC1 "U1" "b@x.com" "30d" 1000 ""
        (some [⟨"IN", "1.000", "pay abc12 now", "01/01/2025 13:00:00"⟩])
        63871502400 false "TS" true
      = (Resp.errSendEmail, sC1) :=
  email_failure_no_mutation sC1 "U1" "b@x.com" "30d" 1000 ""
    [⟨"IN", "1.000", "pay abc12 now", "01/01/2025 13:00:00"⟩]
    63871502400 "TS" true
    ⟨"U1", none, none, "ABC12", none, false⟩
    ⟨"IN", "1.000", "pay abc12 now", "01/01/2025 13:00:00"⟩
    PromoResolution.noCode "KEY-1"
    (by decide) (by decide) (by decide) (by decide) (by decide) (by decide) (by decide)
    (by decide)

/-- C3: an order already recorded paid makes the handler return success
immediately with the state untouched, and after any successful run a
second invocation with the same uid returns success without further side
effects — across the two calls at most one email is recorded and at most
one solved-log line is appended. -/
theorem paid_short_circuit_idempotent
    (s : AppState) (uid email periodCode : String) (amount : Int) (promoRaw : String)
    (mb : Option (List Transaction)) (now : Int) (emailOk : Bool) (ts : String) (apOk : Bool)
    (email2 periodCode2 : String) (amount2 : Int) (promoRaw2 : String)
    (mb2 : Option (List Transaction)) (now2 : Int) (emailOk2 : Bool) (ts2 : String)
    (apOk2 : Bool)
    (huid : uid ≠ "") (hemail : email ≠ "") (hemail2 : email2 ≠ "") :
    (∀ o : Order, getOrder s.orders uid = some o → o.paid = true →
      checkMbPayment s uid email periodCode amount promoRaw mb now emailOk ts apOk
        = (Resp.okAlreadyPaid, s))
    ∧ (∀ (r1 : Resp) (s1 : AppState),
        checkMbPayment s uid email periodCode amount promoRaw mb now emailOk ts apOk
          = (r1, s1) →
        r1.isOk = true →
        checkMbPayment s1 uid email2 periodCode2 amount2 promoRaw2 mb2 now2 emailOk2 ts2 apOk2
          = (Resp.okAlreadyPaid, s1)
        ∧ s1.emailsSent.length ≤ s.emailsSent.length + 1
        ∧ s1.keys.solved.length ≤ s.keys.solved.length + 1) := by
  constructor
  · intro o ho hp
    exact checkMbPayment_already_paid s uid email periodCode amount promoRaw mb now emailOk
      ts apOk o huid hemail ho hp
  · intro r1 s1 h hok
    obtain ⟨⟨o, ho, hp⟩, he, hs⟩ := checkMbPayment_ok_state s uid email periodCode amount
      promoRaw mb now emailOk ts apOk r1 s1 h hok
    exact ⟨checkMbPayment_already_paid s1 uid email2 periodCode2 amount2 promoRaw2 mb2 now2
      emailOk2 ts2 apOk2 o huid hemail2 ho hp, he, hs⟩

/-- The starting state for the C3 witness. -/
def sC3 : AppState :=
  { orders := [⟨"U1", none, none, "ABC12", none, false⟩]
    keys := ⟨none, none, some ["KEY-1", "KEY-2"], none, []⟩
    coupons := []
    promos := []
    deliveryLog := []
    emailsSent := [] }

/-- The matching transaction for the C3 witness. -/
def txC3 : Transaction := ⟨"IN", "1.000", "pay abc12 now", "01/01/2025 13:00:00"⟩

/-- Witness for C3: after a concrete successful fulfillment, the second
call with the same uid returns the already-paid success and changes
nothing. -/
theorem paid_short_circuit_idempotent_witness :
    checkMbPayment
        (checkMbPayment sC3 "U1" "b@x.com" "30d" 1000 "" (some [txC3]) 63871502400 true
          "TS" true).2
        "U1" "b@x.com" "30d" 1000 "" none 63871502400 true "TS" true
      = (Resp.okAlreadyPaid,
         (checkMbPayment sC3 "U1" "b@x.com" "30d" 1000 "" (some [txC3]) 63871502400 true
           "TS" true).2) :=
  ((paid_short_circuit_idempotent sC3 "U1" "b@x.com" "30d" 1000 "" (some [txC3])
      63871502400 true "TS" true "b@x.com" "30d" 1000 "" none 63871502400 true "TS" true
      (by decide) (by decide) (by decide)).2
    _ _ rfl (by decide)).1

/-! ## C8 — OTP send rate limiting -/

theorem verifyOtp_tracking (st : AuthState) (a b : String) (n : Int) :
    (verifyOtp st a b n).2.tracking = st.tracking := by
  simp only [verifyOtp]
  cases alook st.otpStorage (pyLower (pyStrip a)) with
  | none => rfl
  | some stored =>
    by_cases h1 : n > stored.expires
    · simp [h1]
    · by_cases h2 : stored.attempts ≥ 5
      · simp [h1, h2]
      · by_cases h3 : (stored.code != b) = true
        · simp [h1, h2, h3]
        · simp [h1, h2, h3]

theorem runVerifies_tracking (ops : List (String × String × Int)) (st : AuthState) :
    (runVerifies st ops).tracking = st.tracking := by
  induction ops generalizing st with
  | nil => rfl
  | cons op t ih =>
    simp only [runVerifies, List.foldl_cons] at *
    rw [ih, verifyOtp_tracking]

theorem checkCooldown_none (st : AuthState) (email : String) (now : Int)
    (hlk : alook st.tracking email = none) :
    checkEmailSendCooldown st email now = (false, "", st) := by
  simp only [checkEmailSendCooldown, hlk]

theorem checkCooldown_pass (st : AuthState) (email : String) (now : Int)
    (tr : SendTracking)
    (hlk : alook st.tracking email = some tr)
    (hcd : tr.cooldownUntil = none)
    (hrs : ¬ (now > tr.resetTime)) :
    checkEmailSendCooldown st email now = (false, "", st) := by
  simp only [checkEmailSendCooldown, hlk, hcd]
  simp [hrs]

theorem checkCooldown_active (st : AuthState) (email : String) (now : Int)
    (tr : SendTracking) (cu : Int)
    (hlk : alook st.tracking email = some tr)
    (hcd : tr.cooldownUntil = some cu) (hn : now < cu) :
    checkEmailSendCooldown st email now
      = (true, cooldownMessage ((cu - now).toNat / 60), st) := by
  simp only [checkEmailSendCooldown, hlk, hcd]
  simp [hn]

theorem updateTracking_none (st : AuthState) (email : String) (now : Int)
    (hlk : alook st.tracking email = none) :
    updateEmailSendTracking st email now
      = { st with tracking := aset st.tracking email ⟨1, now + 3600, none⟩ } := by
  have h5 : ¬ (0 + 1 ≥ 5) := by omega
  simp only [updateEmailSendTracking, hlk]
  simp [h5]

theorem updateTracking_below (st : AuthState) (email : String) (now : Int)
    (cnt : Nat) (rst : Int) (cdu : Option Int)
    (hlk : alook st.tracking email = some ⟨cnt, rst, cdu⟩)
    (hlt : cnt + 1 < 5) :
    updateEmailSendTracking st email now
      = { st with tracking := aset st.tracking email ⟨cnt + 1, rst, cdu⟩ } := by
  have h5 : ¬ (cnt + 1 ≥ 5) := by omega
  simp only [updateEmailSendTracking, hlk]
  simp [h5]

theorem updateTracking_limit (st : AuthState) (email : String) (now : Int)
    (cnt : Nat) (rst : Int) (cdu : Option Int)
    (hlk : alook st.tracking email = some ⟨cnt, rst, cdu⟩)
    (hge : cnt + 1 ≥ 5) :
    updateEmailSendTracking st email now
      = { st with tracking := aset st.tracking email ⟨cnt + 1, rst, some (now + 3600)⟩ } := by
  simp only [updateEmailSendTracking, hlk]
  simp [hge]

theorem adminSendOtp_state (authorized : List String) (st : AuthState) (rawEmail : String)
    (now : Int) (otp : String)
    (hauth : isEmailAuthorized authorized (pyLower (pyStrip rawEmail)) = true)
    (hne : (pyLower (pyStrip rawEmail) == "") = false)
    (hcool : checkEmailSendCooldown st (pyLower (pyStrip rawEmail)) now = (false, "", st)) :
    (adminSendOtp authorized st rawEmail now otp true).2
      = updateEmailSendTracking
          { st with
            otpStorage :=
              aset st.otpStorage (pyLower (pyStrip rawEmail)) ⟨otp, now + 600, 0⟩ }
          (pyLower (pyStrip rawEmail)) now := by
  simp only [adminSendOtp, hne, hauth, hcool]
  simp

theorem adminSendOtp_cooldown_reject (authorized : List String) (st : AuthState)
    (rawEmail : String) (now : Int) (otp msg : String)
    (hauth : isEmailAuthorized authorized (pyLower (pyStrip rawEmail)) = true)
    (hne : (pyLower (pyStrip rawEmail) == "") = false)
    (hcool : checkEmailSendCooldown st (pyLower (pyStrip rawEmail)) now = (true, msg, st)) :
    adminSendOtp authorized st rawEmail now otp true = (⟨false, msg⟩, st) := by
  simp only [adminSendOtp, hne, hauth, hcool]
  simp

theorem adminSendOtp_tracking_first (authorized : List String) (st : AuthState)
    (rawEmail : String) (now : Int) (otp : String)
    (hauth : isEmailAuthorized authorized (pyLower (pyStrip rawEmail)) = true)
    (hne : (pyLower (pyStrip rawEmail) == "") = false)
    (h0 : alook st.tracking (pyLower (pyStrip rawEmail)) = none) :
    (adminSendOtp authorized st rawEmail now otp true).2.tracking
      = aset st.tracking (pyLower (pyStrip rawEmail)) ⟨1, now + 3600, none⟩ := by
  rw [adminSendOtp_state authorized st rawEmail now otp hauth hne
      (checkCooldown_none st (pyLower (pyStrip rawEmail)) now h0),
    updateTracking_none
      { st with
        otpStorage :=
          aset st.otpStorage (pyLower (pyStrip rawEmail)) ⟨otp, now + 600, 0⟩ }
      (pyLower (pyStrip rawEmail)) now h0]

theorem adminSendOtp_tracking_below (authorized : List String) (st : AuthState)
    (rawEmail : String) (now : Int) (otp : String) (cnt : Nat) (rst : Int)
    (hauth : isEmailAuthorized authorized (pyLower (pyStrip rawEmail)) = true)
    (hne : (pyLower (pyStrip rawEmail) == "") = false)
    (hlk : alook st.tracking (pyLower (pyStrip rawEmail)) = some ⟨cnt, rst, none⟩)
    (hrs : ¬ (now > rst)) (hlt : cnt + 1 < 5) :
    (adminSendOtp authorized st rawEmail now otp true).2.tracking
      = aset st.tracking (pyLower (pyStrip rawEmail)) ⟨cnt + 1, rst, none⟩ := by
  rw [adminSendOtp_state authorized st rawEmail now otp hauth hne
      (checkCooldown_pass st (pyLower (pyStrip rawEmail)) now ⟨cnt, rst, none⟩ hlk rfl hrs),
    updateTracking_below
      { st with
        otpStorage :=
          aset st.otpStorage (pyLower (pyStrip rawEmail)) ⟨otp, now + 600, 0⟩ }
      (pyLower (pyStrip rawEmail)) now cnt rst none hlk hlt]

theorem adminSendOtp_tracking_limit (authorized : List String) (st : AuthState)
    (rawEmail : String) (now : Int) (otp : String) (cnt : Nat) (rst : Int)
    (hauth : isEmailAuthorized authorized (pyLower (pyStrip rawEmail)) = true)
    (hne : (pyLower (pyStrip rawEmail) == "") = false)
    (hlk : alook st.tracking (pyLower (pyStrip rawEmail)) = some ⟨cnt, rst, none⟩)
    (hrs : ¬ (now > rst)) (hge : cnt + 1 ≥ 5) :
    (adminSendOtp authorized st rawEmail now otp true).2.tracking
      = aset st.tracking (pyLower (pyStrip rawEmail)) ⟨cnt + 1, rst, some (now + 3600)⟩ := by
  rw [adminSendOtp_state authorized st rawEmail now otp hauth hne
      (checkCooldown_pass st (pyLower (pyStrip rawEmail)) now ⟨cnt, rst, none⟩ hlk rfl hrs),
    updateTracking_limit
      { st with
        otpStorage :=
          aset st.otpStorage (pyLower (pyStrip rawEmail)) ⟨otp, now + 600, 0⟩ }
      (pyLower (pyStrip rawEmail)) now cnt rst none hlk hge]

/-- C8: six OTP requests for the same authorized email within one hour,
with every send accepted by the provider and arbitrary verification
attempts interleaved, have the 6th rejected with the cooldown message
and no state change (no code generated or sent): each accepted send
bumps the per-email counter, the 5th send starts the 1-hour cooldown,
and a request inside the cooldown is refused before any OTP is stored. -/
theorem otp_sixth_request_rejected
    (authorized : List String) (st0 : AuthState) (rawEmail : String)
    (t1 t2 t3 t4 t5 t6 : Int) (o1 o2 o3 o4 o5 o6 : String)
    (v1 v2 v3 v4 v5 : List (String × String × Int))
    (hauth : isEmailAuthorized authorized (pyLower (pyStrip rawEmail)) = true)
    (hne : (pyLower (pyStrip rawEmail) == "") = false)
    (h0 : alook st0.tracking (pyLower (pyStrip rawEmail)) = none)
    (h12 : t1 ≤ t2) (h23 : t2 ≤ t3) (h34 : t3 ≤ t4) (h45 : t4 ≤ t5) (h56 : t5 ≤ t6)
    (hwin : t6 < t1 + 3600) :
    ∀ s5 : AuthState,
      s5 = runVerifies (adminSendOtp authorized
            (runVerifies (adminSendOtp authorized
              (runVerifies (adminSendOtp authorized
                (runVerifies (adminSendOtp authorized
                  (runVerifies (adminSendOtp authorized st0 rawEmail t1 o1 true).2 v1)
                  rawEmail t2 o2 true).2 v2)
                rawEmail t3 o3 true).2 v3)
              rawEmail t4 o4 true).2 v4)
            rawEmail t5 o5 true).2 v5 →
      adminSendOtp authorized s5 rawEmail t6 o6 true
        = (⟨false, cooldownMessage ((t5 + 3600 - t6).toNat / 60)⟩, s5)
      ∧ alook s5.tracking (pyLower (pyStrip rawEmail))
          = some ⟨5, t1 + 3600, some (t5 + 3600)⟩ := by
  intro s5 hs5
  set e := pyLower (pyStrip rawEmail) with he
  set s1 := runVerifies (adminSendOtp authorized st0 rawEmail t1 o1 true).2 v1 with hs1
  set s2 := runVerifies (adminSendOtp authorized s1 rawEmail t2 o2 true).2 v2 with hs2
  set s3 := runVerifies (adminSendOtp authorized s2 rawEmail t3 o3 true).2 v3 with hs3
  set s4 := runVerifies (adminSendOtp authorized s3 rawEmail t4 o4 true).2 v4 with hs4
  have htr1 : s1.tracking = aset st0.tracking e ⟨1, t1 + 3600, none⟩ := by
    rw [hs1, runVerifies_tracking,
      adminSendOtp_tracking_first authorized st0 rawEmail t1 o1 hauth hne h0]
  have hlk1 : alook s1.tracking e = some ⟨1, t1 + 3600, none⟩ := by
    rw [htr1]
    exact alook_aset_self _ _ _
  have htr2 : s2.tracking = aset st0.tracking e ⟨2, t1 + 3600, none⟩ := by
    rw [hs2, runVerifies_tracking,
      adminSendOtp_tracking_below authorized s1 rawEmail t2 o2 1 (t1 + 3600) hauth hne hlk1
        (by omega) (by omega),
      htr1, aset_aset]
  have hlk2 : alook s2.tracking e = some ⟨2, t1 + 3600, none⟩ := by
    rw [htr2]
    exact alook_aset_self _ _ _
  have htr3 : s3.tracking = aset st0.tracking e ⟨3, t1 + 3600, none⟩ := by
    rw [hs3, runVerifies_tracking,
      adminSendOtp_tracking_below authorized s2 rawEmail t3 o3 2 (t1 + 3600) hauth hne hlk2
        (by omega) (by omega),
      htr2, aset_aset]
  have hlk3 : alook s3.tracking e = some ⟨3, t1 + 3600, none⟩ := by
    rw [htr3]
    exact alook_aset_self _ _ _
  have htr4 : s4.tracking = aset st0.tracking e ⟨4, t1 + 3600, none⟩ := by
    rw [hs4, runVerifies_tracking,
      adminSendOtp_tracking_below authorized s3 rawEmail t4 o4 3 (t1 + 3600) hauth hne hlk3
        (by omega) (by omega),
      htr3, aset_aset]
  have hlk4 : alook s4.tracking e = some ⟨4, t1 + 3600, none⟩ := by
    rw [htr4]
    exact alook_aset_self _ _ _
  have htr5 : s5.tracking = aset st0.tracking e ⟨5, t1 + 3600, some (t5 + 3600)⟩ := by
    rw [hs5, runVerifies_tracking,
      adminSendOtp_tracking_limit authorized s4 rawEmail t5 o5 4 (t1 + 3600) hauth hne hlk4
        (by omega) (by omega),
      htr4, aset_aset]
  have hlk5 : alook s5.tracking e = some ⟨5, t1 + 3600, some (t5 + 3600)⟩ := by
    rw [htr5]
    exact alook_aset_self _ _ _
  refine ⟨?_, hlk5⟩
  exact adminSendOtp_cooldown_reject authorized s5 rawEmail t6 o6 _ hauth hne
    (checkCooldown_active s5 e t6 ⟨5, t1 + 3600, some (t5 + 3600)⟩ (t5 + 3600) hlk5 rfl
      (by omega))

/-- Witness for C8: six concrete requests at minutes 0–50 with no
verifications interleaved; the 6th is rejected with the cooldown text. -/
theorem otp_sixth_request_rejected_witness :
    adminSendOtp ["admin@x.com"]
        (runVerifies (adminSendOtp ["admin@x.com"]
          (runVerifies (adminSendOtp ["admin@x.com"]
            (runVerifies (adminSendOtp ["admin@x.com"]
              (runVerifies (adminSendOtp ["admin@x.com"]
                (runVerifies (adminSendOtp ["admin@x.com"] ⟨[], []⟩
                  "admin@x.com" 0 "111111" true).2 [])
                "admin@x.com" 600 "222222" true).2 [])
              "admin@x.com" 1200 "333333" true).2 [])
            "admin@x.com" 1800 "444444" true).2 [])
          "admin@x.com" 2400 "555555" true).2 [])
        "admin@x.com" 3000 "666666" true
      = (⟨false, cooldownMessage (((2400 : Int) + 3600 - 3000).toNat / 60)⟩,
         runVerifies (adminSendOtp ["admin@x.com"]
          (runVerifies (adminSendOtp ["admin@x.com"]
            (runVerifies (adminSendOtp ["admin@x.com"]
              (runVerifies (adminSendOtp ["admin@x.com"]
                (runVerifies (adminSendOtp ["admin@x.com"] ⟨[], []⟩
                  "admin@x.com" 0 "111111" true).2 [])
                "admin@x.com" 600 "222222" true).2 [])
              "admin@x.com" 1200 "333333" true).2 [])
            "admin@x.com" 1800 "444444" true).2 [])
          "admin@x.com" 2400 "555555" true).2 []) :=
  (otp_sixth_request_rejected ["admin@x.com"] ⟨[], []⟩ "admin@x.com"
    0 600 1200 1800 2400 3000 "111111" "222222" "333333" "444444" "555555" "666666"
    [] [] [] [] []
    (by decide) (by decide) rfl (by decide) (by decide) (by decide) (by decide)
    (by decide) (by decide) _ rfl).1

end Keys
